import Mathlib

/-!
# Verification of `grades.c`

A shallow embedding of the student roster of `src/grades.c` and proofs about
its public operations.

Modelling conventions.

* C strings (`char *`) are `String` values; `strcmp(a, b) == 0` is equality and
  `strcpy` into a fresh buffer yields an equal value.
* `int` values (`id`, `grade`, `num_courses`) are `Int`.  The only arithmetic
  on them is `num_courses += 1`, whose overflow is undefined behaviour in C and
  needs `INT_MAX` stored courses; it is not modelled.
* `float gpa` is the rational value of a binary32 number.  Every `float`
  operation and every `int` to `float` conversion of the code is followed by
  `f32`, rounding to nearest with ties to even at 24 significant bits (each
  operation rounded on its own, `FLT_EVAL_METHOD == 0`).  `f32` has no exponent
  limits: it is the binary32 rounding wherever magnitudes stay within
  `[2^-126, 2^128)`, as they do for averages around the grade range and counts
  that fit an `int`; infinities and NaN are not modelled.
* Every allocation whose failure the code tests for is driven by an explicit
  outcome flag (`Alloc`), so the failure paths of the code are part of the
  model.  Three allocations are used before any test (the roster header at
  line 158 and the record of each clone callback at lines 45 and 87): their
  failure is undefined behaviour and they are taken to succeed.
* A `struct grades *` argument is an `Option grades` (`none` is `NULL`); every
  operation returns its C return value together with the roster afterwards.
* The text written by `printf` is returned as a `String` next to the return
  value; `%d` is the decimal text of the integer.
* The generic container of `linked-list.h` is not part of the source tree; it is
  modelled from the specification as an ordered sequence (`List`).  A cursor
  loop `for (n = list_begin(l); n; n = list_next(n))` over it is a structural
  recursion over the sequence, and `list_get` of a valid node is never `NULL`.
-/

namespace GradesC

/-! ## Data model -/

/-- Course node element (`course_data`, grades.c:30-33). -/
structure course_data where
  name : String
  grade : Int
  deriving DecidableEq, Repr

/-- Student node element (`student_data`, grades.c:21-27). -/
structure student_data where
  courses : List course_data
  name : String
  gpa : ℚ
  id : Int
  num_courses : Int
  deriving DecidableEq

/-- The roster (`struct grades`, grades.c:16-18). -/
structure grades where
  students : List student_data
  deriving DecidableEq

/-- Outcomes of the allocation sites reached by one call: `true` means the
allocation succeeds.
* `name_buf`: the `malloc` of a name buffer in `grades_add_student` (line 205),
  `grades_add_grade` (line 289) or `grades_calc_avg` (line 334);
* `list_new`: `list_init` (lines 160, 212);
* `clone_name`: the `malloc` of the name buffer in the clone callback run by
  `list_push_back` (lines 46, 88). -/
structure Alloc where
  name_buf : Bool
  list_new : Bool
  clone_name : Bool
  deriving DecidableEq

/-- Every allocation succeeds. -/
def Alloc.ok : Alloc := ⟨true, true, true⟩

/-! ## The container of `linked-list.h` -/

/-- Modelled from the spec: `list_init` of the missing `linked-list.h`
("create(duplicate, destroy) -> Container"); the source checks its result
against `NULL`, so creation takes an outcome flag. -/
def list_init {α : Type} (ok : Bool) : Option (List α) :=
  if ok then some [] else none

/-- Modelled from the spec: `list_size` of the missing `linked-list.h`
("size(container) -> count, consistent with iteration count"). -/
def list_size {α : Type} (l : List α) : Nat := l.length

/-- Modelled from the spec: `list_begin` of the missing `linked-list.h`; the
cursor is the non-empty remainder of the sequence, `none` is `NULL`. -/
def list_begin {α : Type} (l : List α) : Option (List α) :=
  match l with
  | [] => none
  | _ :: _ => some l

/-- Modelled from the spec: `list_push_back` of the missing `linked-list.h`
("append: duplicates value via the configured duplicate operation; on success
the duplicate is appended as the new last element; on duplication failure the
container is left unchanged and the error is surfaced").  `none` is the
non-zero return value; the container is then the unchanged argument. -/
def list_push_back {α : Type} (clone : α → Int × Option α) (l : List α) (x : α) :
    Option (List α) :=
  match clone x with
  | (0, some y) => some (l ++ [y])
  | _ => none

/-! ## Binary32 arithmetic -/

/-- Rounding of a rational to the nearest integer, ties to the even one. -/
def round_even (x : ℚ) : Int :=
  if x - (⌊x⌋ : ℚ) < 1 / 2 then ⌊x⌋
  else if 1 / 2 < x - (⌊x⌋ : ℚ) then ⌊x⌋ + 1
  else if ⌊x⌋ % 2 = 0 then ⌊x⌋ else ⌊x⌋ + 1

/-- The value a `float` operation stores for the exact result `x`: `x` scaled
so that its integer part has 24 bits, rounded to nearest (ties to even), and
scaled back. -/
def f32 (x : ℚ) : ℚ :=
  if x = 0 then 0
  else (round_even (x / (2 : ℚ) ^ (Int.log 2 |x| - 23)) : ℚ) * (2 : ℚ) ^ (Int.log 2 |x| - 23)

/-- The assignment at grades.c:282-285,
`gpa = (1/(float)num_courses) * (gpa * (num_courses-1) + (float)grade)`,
with `num_courses` already incremented: the three conversions and the
division, the inner product, the sum and the outer product are each rounded.
The count is at least 1 here whenever the stored count was not negative, so
the division by zero of a stored count of -1 does not arise in a roster built
through the operations. -/
def gpa_update (gpa : ℚ) (num_courses grade : Int) : ℚ :=
  f32 (f32 (1 / f32 (num_courses : ℚ)) *
    f32 (f32 (gpa * f32 ((num_courses - 1 : Int) : ℚ)) + f32 (grade : ℚ)))

/-! ## Clone callbacks -/

/-- `student_data_clone` (grades.c:41-63): return value and `*output`.  The
course container is handed over as it is (line 54). -/
def student_data_clone (name_ok : Bool) (elem : student_data) :
    Int × Option student_data :=
  if !name_ok then (-1, none)
  else
    (0, some { courses := elem.courses, name := elem.name, gpa := elem.gpa,
               id := elem.id, num_courses := elem.num_courses })

/-- `course_data_clone` (grades.c:83-102): return value and `*output`. -/
def course_data_clone (name_ok : Bool) (elem : course_data) :
    Int × Option course_data :=
  if !name_ok then (-1, none)
  else (0, some { grade := elem.grade, name := elem.name })

/-! ## Clone callbacks over memory

The roster operations above work on values.  The same two callbacks are given
here once more over addresses, so that which buffer and which container a
record refers to can be told apart from what they contain. -/

/-- The part of the heap the clone callbacks deal with: the `char` buffers by
address with the string each holds, and the containers (`struct list`) by
address with their courses; `none` marks an address that is not allocated. -/
structure Memory where
  text : Nat → Option String
  lists : Nat → Option (List course_data)

/-- The `course_data` struct with its pointer field as an address. -/
structure course_ptr where
  name : Nat
  grade : Int
  deriving DecidableEq

/-- The `student_data` struct with its pointer fields as addresses. -/
structure student_ptr where
  courses : Nat
  name : Nat
  gpa : ℚ
  id : Int
  num_courses : Int
  deriving DecidableEq

/-- `strcpy(dst, src)`: the buffer at `dst` receives the string at `src`. -/
def strcpy (m : Memory) (dst src : Nat) : Memory :=
  { text := fun a => if a = dst then m.text src else m.text a, lists := m.lists }

/-- A later `strcpy` of the string `t` into the buffer at `a`. -/
def overwrite (m : Memory) (a : Nat) (t : String) : Memory :=
  { text := fun b => if b = a then some t else m.text b, lists := m.lists }

/-- A later `free` of the buffer at `a`. -/
def release (m : Memory) (a : Nat) : Memory :=
  { text := fun b => if b = a then none else m.text b, lists := m.lists }

/-- `course_data_clone` (grades.c:83-102) over memory: return value, `*output`
and the memory afterwards.  `name_buf` is what the `malloc` at line 88
returns, `none` for `NULL`. -/
def course_data_clone_mem (m : Memory) (name_buf : Option Nat) (elem : course_ptr) :
    (Int × Option course_ptr) × Memory :=
  match name_buf with
  | none => ((-1, none), m)
  | some p => ((0, some { grade := elem.grade, name := p }), strcpy m p elem.name)

/-- `student_data_clone` (grades.c:41-63) over memory: return value, `*output`
and the memory afterwards.  `name_buf` is what the `malloc` at line 46
returns, `none` for `NULL`; line 54 copies the container pointer. -/
def student_data_clone_mem (m : Memory) (name_buf : Option Nat) (elem : student_ptr) :
    (Int × Option student_ptr) × Memory :=
  match name_buf with
  | none => ((-1, none), m)
  | some p =>
    ((0, some { courses := elem.courses, name := p, gpa := elem.gpa, id := elem.id,
                num_courses := elem.num_courses }),
      strcpy m p elem.name)

/-- The course value a `course_data` struct denotes in a memory. -/
def read_course (m : Memory) (c : course_ptr) : Option course_data :=
  match m.text c.name with
  | none => none
  | some str => some { name := str, grade := c.grade }

/-- The student value a `student_data` struct denotes in a memory. -/
def read_student (m : Memory) (s : student_ptr) : Option student_data :=
  match m.text s.name, m.lists s.courses with
  | some str, some cs =>
    some { courses := cs, name := str, gpa := s.gpa, id := s.id, num_courses := s.num_courses }
  | _, _ => none

/-! ## Roster operations -/

/-- `grades_init` (grades.c:156-167). -/
def grades_init (list_ok : Bool) : Option grades :=
  match (list_init list_ok : Option (List student_data)) with
  | none => none
  | some l => some { students := l }

/-- The id search loop of `grades_add_student` (grades.c:189-201): `true` when
the loop leaves through `return -1` at line 197. -/
def id_exists : List student_data → Int → Bool
  | [], _ => false
  | s :: rest, id => if s.id = id then true else id_exists rest id

/-- `grades_add_student` (grades.c:174-229). -/
def grades_add_student (a : Alloc) (g : Option grades) (name : String) (id : Int) :
    Int × Option grades :=
  match g with
  | none => (-1, none)
  | some r =>
    if (list_begin r.students).isNone && list_size r.students != 0 then (-1, some r)
    else if id_exists r.students id then (-1, some r)
    else if !a.name_buf then (-1, some r)
    else
      match (list_init a.list_new : Option (List course_data)) with
      | none => (-1, some r)
      | some cs =>
        let new_student : student_data :=
          { courses := cs, name := name, gpa := 0, id := id, num_courses := 0 }
        match list_push_back (student_data_clone a.clone_name)
            r.students new_student with
        | none => (-1, some r)
        | some l => (0, some { students := l })

/-- The course-name search loop of `grades_add_grade` (grades.c:265-278):
`true` when the loop leaves through `return -1` at line 274. -/
def course_exists : List course_data → String → Bool
  | [], _ => false
  | c :: rest, name => if c.name = name then true else course_exists rest name

/-- The body of `grades_add_grade` for the student found (grades.c:257-304):
return value and the student record afterwards. -/
def add_grade_student (a : Alloc) (s : student_data) (name : String) (grade : Int) :
    Int × student_data :=
  if (list_begin s.courses).isNone && list_size s.courses != 0 then (-1, s)
  else if course_exists s.courses name then (-1, s)
  else
    let s1 : student_data := { s with num_courses := s.num_courses + 1 }
    let s2 : student_data := { s1 with gpa := gpa_update s1.gpa s1.num_courses grade }
    if !a.name_buf then (-1, s2)
    else
      let new_course : course_data := { name := name, grade := grade }
      match list_push_back (course_data_clone a.clone_name)
          s2.courses new_course with
      | none => (-1, s2)
      | some cs => (0, { s2 with courses := cs })

/-- The student loop of `grades_add_grade` (grades.c:247-311): return value and
the student sequence afterwards. -/
def add_grade_loop (a : Alloc) (name : String) (id grade : Int) :
    List student_data → Int × List student_data
  | [] => (-1, [])
  | s :: rest =>
    if s.id = id then
      ((add_grade_student a s name grade).1, (add_grade_student a s name grade).2 :: rest)
    else
      ((add_grade_loop a name id grade rest).1, s :: (add_grade_loop a name id grade rest).2)

/-- `grades_add_grade` (grades.c:231-312). -/
def grades_add_grade (a : Alloc) (g : Option grades) (name : String) (id grade : Int) :
    Int × Option grades :=
  match g with
  | none => (-1, none)
  | some r =>
    if grade < 0 || grade > 100 then (-1, some r)
    else if (list_begin r.students).isNone && list_size r.students != 0 then (-1, some r)
    else
      ((add_grade_loop a name id grade r.students).1,
        some { students := (add_grade_loop a name id grade r.students).2 })

/-- The student loop of `grades_calc_avg` (grades.c:324-350): `*out` and the
return value. -/
def calc_avg_loop (a : Alloc) (id : Int) : List student_data → Option String × ℚ
  | [] => (none, -1)
  | s :: rest =>
    if s.id = id then
      if !a.name_buf then (none, -1) else (some s.name, s.gpa)
    else calc_avg_loop a id rest

/-- `grades_calc_avg` (grades.c:314-351): `*out`, the return value and the
roster afterwards. -/
def grades_calc_avg (a : Alloc) (g : Option grades) (id : Int) :
    (Option String × ℚ) × Option grades :=
  match g with
  | none => ((none, -1), none)
  | some r => (calc_avg_loop a id r.students, some r)

/-! ## Printing

The text written to standard output by `printf` is returned as a `String`
next to the return value. -/

/-- The `%d` conversion of `printf` for an `int`: decimal digits, with a
leading `-` for a negative value. -/
def fmt_d (n : Int) : String := toString n

/-- The course loop of `print_student_info` (grades.c:138-151): the text it
writes from the cursor on. -/
def print_courses : List course_data → String
  | [] => ""
  | c :: rest =>
    (" " ++ c.name ++ " " ++ fmt_d c.grade) ++
      ((if (list_begin rest).isSome then "," else "") ++ print_courses rest)

/-- `print_student_info` (grades.c:122-154): return value and text written. -/
def print_student_info (cur_student_data : student_data) : Int × String :=
  let head := cur_student_data.name ++ " " ++ fmt_d cur_student_data.id ++ ":"
  if list_size cur_student_data.courses == 0 then (0, head)
  else
    match list_begin cur_student_data.courses with
    | none => (-1, head)
    | some cur_course => (0, head ++ print_courses cur_course)

/-- The student loop of `grades_print_student` (grades.c:370-392). -/
def print_student_loop (id : Int) : List student_data → Int × String
  | [] => (-1, "")
  | s :: rest =>
    if s.id = id then
      if (print_student_info s).1 ≠ 0 then (-1, (print_student_info s).2)
      else (0, (print_student_info s).2 ++ "\n")
    else print_student_loop id rest

/-- `grades_print_student` (grades.c:353-393): return value and text written. -/
def grades_print_student (g : Option grades) (id : Int) : Int × String :=
  match g with
  | none => (-1, "")
  | some r =>
    if list_size r.students == 0 then (-1, "")
    else
      match list_begin r.students with
      | none => (-1, "")
      | some cur_student => print_student_loop id cur_student

/-- The student loop of `grades_print_all` (grades.c:412-428). -/
def print_all_loop : List student_data → Int × String
  | [] => (0, "")
  | s :: rest =>
    if (print_student_info s).1 ≠ 0 then (-1, (print_student_info s).2)
    else ((print_all_loop rest).1, ((print_student_info s).2 ++ "\n") ++ (print_all_loop rest).2)

/-- `grades_print_all` (grades.c:395-429): return value and text written. -/
def grades_print_all (g : Option grades) : Int × String :=
  match g with
  | none => (-1, "")
  | some r =>
    if list_size r.students == 0 then (0, "")
    else
      match list_begin r.students with
      | none => (-1, "")
      | some cur_student => print_all_loop cur_student

/-! ## Specification vocabulary -/

/-- The student a lookup by id identifies: the first stored student with that
id, the one at which the cursor loops of the operations stop. -/
def find_student (l : List student_data) (id : Int) : Option student_data :=
  l.find? (fun s => decide (s.id = id))

/-- The record a successful `grades_add_grade` on `s` leaves: one more course
at the end, the count incremented to `n`, and the average recomputed from the
old average and `n` by the rounded running-mean assignment. -/
def graded (s : student_data) (name : String) (grade : Int) : student_data :=
  { courses := s.courses ++ [{ name := name, grade := grade }],
    name := s.name,
    gpa := gpa_update s.gpa (s.num_courses + 1) grade,
    id := s.id,
    num_courses := s.num_courses + 1 }

/-- The record `grades_add_student` stores for a new student. -/
def fresh_student (name : String) (id : Int) : student_data :=
  { courses := [], name := name, gpa := 0, id := id, num_courses := 0 }

/-- Arithmetic mean of a sequence of grades, `0` for the empty sequence. -/
def mean (gs : List Int) : ℚ :=
  if gs.length = 0 then 0 else ((gs.sum : Int) : ℚ) / (gs.length : ℚ)

/-- The course part of the canonical line: for each course in order the text
`" name grade"`, with a `","` after every course except the last. -/
def course_list_text : List course_data → String
  | [] => ""
  | [c] => " " ++ c.name ++ " " ++ fmt_d c.grade
  | c :: d :: rest => (" " ++ c.name ++ " " ++ fmt_d c.grade) ++ ("," ++ course_list_text (d :: rest))

/-- The canonical line of a student: `"name id:"`, the course part, and a
newline. -/
def canonical_line (s : student_data) : String :=
  (s.name ++ " " ++ fmt_d s.id ++ ":") ++ course_list_text s.courses ++ "\n"

/-- The texts of a sequence put one after the other. -/
def concat_text (l : List String) : String := l.foldr (fun x acc => x ++ acc) ""

/-- A record whose count and average are not negative. -/
def bounded (s : student_data) : Prop :=
  0 ≤ s.num_courses ∧ 0 ≤ s.gpa

/-- What a `grades_add_grade` call for id `i` may do to a stored record `s`,
with `t` the record afterwards: name and id stay, a record with another id
stays as it is, and the old courses are the first courses of the new list. -/
def frame_rel (i : Int) (s t : student_data) : Prop :=
  t.name = s.name ∧ t.id = s.id ∧ (s.id ≠ i → t = s) ∧ s.courses <+: t.courses

/-- A mutating call on the roster, with the allocation outcomes it meets. -/
inductive Call where
  | add_student (a : Alloc) (name : String) (id : Int)
  | add_grade (a : Alloc) (name : String) (id : Int) (grade : Int)

/-- The roster after one call. -/
def Call.step (g : Option grades) : Call → Option grades
  | Call.add_student a name id => (grades_add_student a g name id).2
  | Call.add_grade a name id grade => (grades_add_grade a g name id grade).2

/-- The roster after a sequence of calls, successful or not. -/
def run (g : Option grades) (cs : List Call) : Option grades :=
  cs.foldl Call.step g

/-- The per-student invariant of the data model: `num_courses` counts the
stored courses and `gpa` is the mean of their grades. -/
def consistent (s : student_data) : Prop :=
  s.num_courses = (s.courses.length : Int) ∧ s.gpa = mean (s.courses.map course_data.grade)

/-- The name-buffer allocation of the call fails, every other one succeeds. -/
def Alloc.no_name_buf : Alloc := ⟨false, true, true⟩

/-- The clone callback of `list_push_back` cannot allocate the name of its copy. -/
def Alloc.no_clone : Alloc := ⟨true, true, false⟩

/-! ## Sample rosters -/

/-- Two students without grades. -/
def roster_two : grades :=
  { students := [fresh_student "Dana" 7, fresh_student "Omer" 8] }

/-- `roster_two` after student 7 received `("Algebra", 90)`. -/
def roster_algebra : grades :=
  { students := [{ courses := [{ name := "Algebra", grade := 90 }], name := "Dana",
                   gpa := 90, id := 7, num_courses := 1 },
                 fresh_student "Omer" 8] }

/-- `roster_two` with the count and average of student 7 already updated for a
first grade of 90 while the course list is still empty. -/
def roster_torn : grades :=
  { students := [{ courses := [], name := "Dana", gpa := 90, id := 7, num_courses := 1 },
                 fresh_student "Omer" 8] }

/-- Student `("Alice", 1)` with courses `("CS", 90)` then `("Math", 80)`. -/
def alice : student_data :=
  { courses := [{ name := "CS", grade := 90 }, { name := "Math", grade := 80 }],
    name := "Alice", gpa := 85, id := 1, num_courses := 2 }

/-- Alice followed by Bob, who has no courses. -/
def roster_alice_bob : grades :=
  { students := [alice, fresh_student "Bob" 2] }

/-- Two stored students sharing the id 7; no sequence of calls produces it. -/
def roster_same_id : grades :=
  { students := [fresh_student "Dana" 7, fresh_student "Omer" 7] }

/-- A memory with the name buffer of a course at address 100 and, for a
student, a name buffer at 300 and a course container at 400. -/
def memory_sample : Memory :=
  { text := fun a => if a = 100 then some "CS" else if a = 300 then some "Alice" else none,
    lists := fun a => if a = 400 then some [{ name := "CS", grade := 90 }] else none }

/-- The course `("CS", 90)` with its name at address 100. -/
def course_sample : course_ptr := { name := 100, grade := 90 }

/-- Alice with her name at address 300 and her courses at address 400. -/
def student_sample : student_ptr :=
  { courses := 400, name := 300, gpa := 90, id := 1, num_courses := 1 }

/-- Student 7 is added to the empty roster and receives two grades of 0. -/
def two_zeros : List Call :=
  [Call.add_student Alloc.ok "Dana" 7, Call.add_grade Alloc.ok "Algebra" 7 0,
   Call.add_grade Alloc.ok "Physics" 7 0]

/-- The roster `two_zeros` builds. -/
def roster_zeros : grades :=
  { students := [{ courses := [{ name := "Algebra", grade := 0 },
                               { name := "Physics", grade := 0 }],
                   name := "Dana", gpa := 0, id := 7, num_courses := 2 }] }

/-- `roster_zeros` after student 7 received `("Logic", 1)`. -/
def roster_third : grades :=
  { students := [{ courses := [{ name := "Algebra", grade := 0 },
                               { name := "Physics", grade := 0 },
                               { name := "Logic", grade := 1 }],
                   name := "Dana", gpa := 11184811 / 33554432, id := 7, num_courses := 3 }] }

/-- Student 7 is added to the empty roster and receives seven grades of 100,
every allocation succeeding. -/
def seven_hundreds : List Call :=
  [Call.add_student Alloc.ok "Dana" 7, Call.add_grade Alloc.ok "C1" 7 100,
   Call.add_grade Alloc.ok "C2" 7 100, Call.add_grade Alloc.ok "C3" 7 100,
   Call.add_grade Alloc.ok "C4" 7 100, Call.add_grade Alloc.ok "C5" 7 100,
   Call.add_grade Alloc.ok "C6" 7 100, Call.add_grade Alloc.ok "C7" 7 100]

/-- The roster `seven_hundreds` builds. -/
def roster_hundreds : grades :=
  { students := [{ courses := [{ name := "C1", grade := 100 }, { name := "C2", grade := 100 },
                               { name := "C3", grade := 100 }, { name := "C4", grade := 100 },
                               { name := "C5", grade := 100 }, { name := "C6", grade := 100 },
                               { name := "C7", grade := 100 }],
                   name := "Dana", gpa := 13107201 / 131072, id := 7, num_courses := 7 }] }

/-! ## Binary32 rounding -/

theorem round_even_intCast (z : Int) : round_even (z : ℚ) = z := by
  simp [round_even]

theorem round_even_of_near (x : ℚ) (m : Int) (h1 : (m : ℚ) - 1 / 2 < x)
    (h2 : x < (m : ℚ) + 1 / 2) : round_even x = m := by
  by_cases hx : (m : ℚ) ≤ x
  · have hf : ⌊x⌋ = m := Int.floor_eq_iff.mpr ⟨hx, by linarith⟩
    have : x - (m : ℚ) < 1 / 2 := by linarith
    simp only [round_even, hf, this, if_true]
  · have hx2 : x < (m : ℚ) := lt_of_not_le hx
    have hf : ⌊x⌋ = m - 1 := Int.floor_eq_iff.mpr ⟨by push_cast; linarith, by push_cast; linarith⟩
    have h3 : ¬ (x - ((m - 1 : Int) : ℚ) < 1 / 2) := by push_cast; linarith
    have h4 : 1 / 2 < x - ((m - 1 : Int) : ℚ) := by push_cast; linarith
    simp only [round_even, hf, h3, h4, if_true, if_false]
    omega

theorem round_even_nonneg (x : ℚ) (h : 0 ≤ x) : 0 ≤ round_even x := by
  have hf : 0 ≤ ⌊x⌋ := Int.floor_nonneg.mpr h
  unfold round_even
  split_ifs <;> omega

theorem log_eq_of_bounds (x : ℚ) (e : Int) (hx : 0 < x) (h1 : (2 : ℚ) ^ e ≤ x)
    (h2 : x < (2 : ℚ) ^ (e + 1)) : Int.log 2 x = e := by
  apply le_antisymm
  · have := (Int.lt_zpow_iff_log_lt (b := 2) (by norm_num) hx).mp (by exact_mod_cast h2)
    omega
  · exact (Int.zpow_le_iff_le_log (b := 2) (by norm_num) hx).mp (by exact_mod_cast h1)

theorem f32_zero : f32 0 = 0 := by simp [f32]

/-- Evaluation of `f32` at a positive value from its binade, the integer next
to the scaled value, and the stored value. -/
theorem f32_near (x : ℚ) (m e : Int) (y : ℚ) (hx : 0 < x)
    (h1 : (2 : ℚ) ^ (e + 23) ≤ x) (h2 : x < (2 : ℚ) ^ (e + 24))
    (h3 : (m : ℚ) - 1 / 2 < x / (2 : ℚ) ^ e) (h4 : x / (2 : ℚ) ^ e < (m : ℚ) + 1 / 2)
    (hy : y = (m : ℚ) * (2 : ℚ) ^ e) : f32 x = y := by
  have hl : Int.log 2 |x| = e + 23 := by
    rw [abs_of_pos hx]
    exact log_eq_of_bounds x (e + 23) hx h1 (by rw [show e + 23 + 1 = e + 24 by ring]; exact h2)
  have he : e + 23 - 23 = e := by omega
  have hr := round_even_of_near _ m h3 h4
  simp only [f32, hx.ne', if_false, hl, he, hr, hy]

theorem f32_nonneg (x : ℚ) (h : 0 ≤ x) : 0 ≤ f32 x := by
  unfold f32
  split_ifs with h0
  · exact le_refl 0
  · have hp : (0 : ℚ) < (2 : ℚ) ^ (Int.log 2 |x| - 23) := by positivity
    have hq : 0 ≤ x / (2 : ℚ) ^ (Int.log 2 |x| - 23) := div_nonneg h hp.le
    have := round_even_nonneg _ hq
    have h2 : (0 : ℚ) ≤ (round_even (x / (2 : ℚ) ^ (Int.log 2 |x| - 23)) : ℚ) := by
      exact_mod_cast this
    exact mul_nonneg h2 hp.le

/-- An `int` below `2^24` converts to `float` without rounding. -/
theorem f32_int (k : Int) (h0 : 0 ≤ k) (h1 : k < 2 ^ 24) : f32 (k : ℚ) = (k : ℚ) := by
  rcases eq_or_lt_of_le h0 with rfl | hpos
  · simp [f32]
  · have hk : (0 : ℚ) < (k : ℚ) := by exact_mod_cast hpos
    have hL0 : 0 ≤ Int.log 2 (k : ℚ) :=
      (Int.zpow_le_iff_le_log (b := 2) (by norm_num) hk).mp (by
        simp only [zpow_zero]
        exact_mod_cast hpos)
    have hL1 : Int.log 2 (k : ℚ) < 24 :=
      (Int.lt_zpow_iff_log_lt (b := 2) (by norm_num) hk).mp (by
        have : (k : ℚ) < (2 : ℚ) ^ (24 : ℕ) := by exact_mod_cast h1
        rw [← zpow_natCast] at this
        exact_mod_cast this)
    obtain ⟨d, hd⟩ : ∃ d : ℕ, Int.log 2 (k : ℚ) - 23 = -(d : Int) :=
      ⟨(23 - Int.log 2 (k : ℚ)).toNat, by omega⟩
    have hpow : (2 : ℚ) ^ (Int.log 2 |(k : ℚ)| - 23) = ((2 : ℚ) ^ d)⁻¹ := by
      rw [abs_of_pos hk, hd, zpow_neg, zpow_natCast]
    have hscaled : (k : ℚ) / ((2 : ℚ) ^ d)⁻¹ = ((k * 2 ^ d : Int) : ℚ) := by
      push_cast
      rw [div_inv_eq_mul]
    have h2 : ((2 : ℚ) ^ d) ≠ 0 := by positivity
    simp only [f32, hk.ne', if_false, hpow, hscaled, round_even_intCast]
    push_cast
    field_simp

theorem gpa_update_nonneg (gpa : ℚ) (n grade : Int) (hg : 0 ≤ gpa) (hn : 1 ≤ n)
    (hgr : 0 ≤ grade) : 0 ≤ gpa_update gpa n grade := by
  have h1 : (0 : ℚ) ≤ (n : ℚ) := by exact_mod_cast (by omega : (0 : Int) ≤ n)
  have h2 : (0 : ℚ) ≤ ((n - 1 : Int) : ℚ) := by exact_mod_cast (by omega : (0 : Int) ≤ n - 1)
  have h3 : (0 : ℚ) ≤ (grade : ℚ) := by exact_mod_cast hgr
  unfold gpa_update
  apply f32_nonneg
  apply mul_nonneg
  · exact f32_nonneg _ (div_nonneg zero_le_one (f32_nonneg _ h1))
  · apply f32_nonneg
    apply add_nonneg
    · exact f32_nonneg _ (mul_nonneg hg (f32_nonneg _ h2))
    · exact f32_nonneg _ h3

/-- Evaluation of the running-mean assignment along its seven roundings. -/
theorem gpa_update_eval (gpa : ℚ) (n grade : Int) (a b c d e s r : ℚ)
    (ha : f32 (n : ℚ) = a) (hb : f32 (1 / a) = b) (hc : f32 ((n - 1 : Int) : ℚ) = c)
    (hd : f32 (gpa * c) = d) (he : f32 (grade : ℚ) = e) (hs : f32 (d + e) = s)
    (hr : f32 (b * s) = r) : gpa_update gpa n grade = r := by
  simp only [gpa_update, ha, hb, hc, hd, he, hs, hr]

theorem round_even_err (y : ℚ) : |(round_even y : ℚ) - y| ≤ 1 / 2 := by
  have h0 : (⌊y⌋ : ℚ) ≤ y := Int.floor_le y
  have h1 : y < (⌊y⌋ : ℚ) + 1 := Int.lt_floor_add_one y
  unfold round_even
  split_ifs with ha hb hc
  · rw [abs_le]; constructor <;> linarith
  · push_cast; rw [abs_le]; constructor <;> linarith
  · rw [abs_le]; constructor <;> linarith
  · push_cast; rw [abs_le]; constructor <;> linarith

/-- One rounding changes a value by at most the fraction `2^-24` of it. -/
theorem f32_err (x : ℚ) : |f32 x - x| ≤ |x| * (1 / 2 ^ 24) := by
  by_cases hx : x = 0
  · simp [hx, f32]
  · have hpos : 0 < |x| := abs_pos.mpr hx
    have hlog : (2 : ℚ) ^ Int.log 2 |x| ≤ |x| := by
      have := Int.zpow_log_le_self (b := 2) (by norm_num) hpos
      exact_mod_cast this
    have hp : (0 : ℚ) < (2 : ℚ) ^ (Int.log 2 |x| - 23) := by positivity
    have hsplit : (2 : ℚ) ^ (Int.log 2 |x| - 23) = (2 : ℚ) ^ Int.log 2 |x| * (1 / 2 ^ 23) := by
      rw [zpow_sub₀ (by norm_num : (2 : ℚ) ≠ 0)]
      norm_num [div_eq_mul_inv]
    have hr := round_even_err (x / (2 : ℚ) ^ (Int.log 2 |x| - 23))
    have hx2 : x = x / (2 : ℚ) ^ (Int.log 2 |x| - 23) * (2 : ℚ) ^ (Int.log 2 |x| - 23) := by
      field_simp
    have hdiff : f32 x - x =
        ((round_even (x / (2 : ℚ) ^ (Int.log 2 |x| - 23)) : ℚ) -
          x / (2 : ℚ) ^ (Int.log 2 |x| - 23)) * (2 : ℚ) ^ (Int.log 2 |x| - 23) := by
      simp only [f32, hx, if_false]
      rw [sub_mul, ← hx2]
    rw [hdiff, abs_mul, abs_of_pos hp]
    calc |(round_even (x / (2 : ℚ) ^ (Int.log 2 |x| - 23)) : ℚ) -
            x / (2 : ℚ) ^ (Int.log 2 |x| - 23)| * (2 : ℚ) ^ (Int.log 2 |x| - 23)
        ≤ 1 / 2 * (2 : ℚ) ^ (Int.log 2 |x| - 23) := mul_le_mul_of_nonneg_right hr hp.le
      _ = (2 : ℚ) ^ Int.log 2 |x| * (1 / 2 ^ 24) := by rw [hsplit]; ring
      _ ≤ |x| * (1 / 2 ^ 24) := mul_le_mul_of_nonneg_right hlog (by positivity)

theorem f32_lower (x : ℚ) (h : 0 ≤ x) : (1 - 1 / 2 ^ 24) * x ≤ f32 x := by
  have := f32_err x
  rw [abs_of_nonneg h, abs_le] at this
  linarith [this.1]

theorem f32_upper (x : ℚ) (h : 0 ≤ x) : f32 x ≤ (1 + 1 / 2 ^ 24) * x := by
  have := f32_err x
  rw [abs_of_nonneg h, abs_le] at this
  linarith [this.2]

/-- Accuracy of the running-mean assignment: for a non-negative average and
grade and a count below `2^24` the stored value is the exact
`(gpa * (n - 1) + grade) / n` up to the factor `(1 ± 2^-24)^4` of its four
rounded operations. -/
theorem gpa_update_accuracy (gpa : ℚ) (n grade : Int) (hg : 0 ≤ gpa) (hn1 : 1 ≤ n)
    (hn2 : n < 2 ^ 24) (hgr0 : 0 ≤ grade) (hgr1 : grade < 2 ^ 24) :
    (1 - 1 / 2 ^ 24) ^ 4 * ((gpa * ((n : ℚ) - 1) + (grade : ℚ)) / (n : ℚ)) ≤
        gpa_update gpa n grade ∧
      gpa_update gpa n grade ≤
        (1 + 1 / 2 ^ 24) ^ 4 * ((gpa * ((n : ℚ) - 1) + (grade : ℚ)) / (n : ℚ)) := by
  have hnq : (0 : ℚ) < (n : ℚ) := by exact_mod_cast (by omega : (0 : Int) < n)
  have hn1q : (0 : ℚ) ≤ (n : ℚ) - 1 := by
    have : (1 : ℚ) ≤ (n : ℚ) := by exact_mod_cast hn1
    linarith
  have hgq : (0 : ℚ) ≤ (grade : ℚ) := by exact_mod_cast hgr0
  have ea : f32 (n : ℚ) = (n : ℚ) := f32_int n (by omega) hn2
  have ec : f32 ((n - 1 : Int) : ℚ) = (n : ℚ) - 1 := by
    rw [f32_int (n - 1) (by omega) (by omega)]; push_cast; ring
  have ee : f32 (grade : ℚ) = (grade : ℚ) := f32_int grade hgr0 hgr1
  have hP : 0 ≤ gpa * ((n : ℚ) - 1) := mul_nonneg hg hn1q
  have hA0 : (0 : ℚ) ≤ 1 / (n : ℚ) := by positivity
  have hAl := f32_lower _ hA0
  have hAu := f32_upper _ hA0
  have hBl := f32_lower _ hP
  have hBu := f32_upper _ hP
  have hB0 := f32_nonneg _ hP
  have hS0 : 0 ≤ f32 (gpa * ((n : ℚ) - 1)) + (grade : ℚ) := add_nonneg hB0 hgq
  have hCl := f32_lower _ hS0
  have hCu := f32_upper _ hS0
  have hC0 := f32_nonneg _ hS0
  have hfA0 := f32_nonneg _ hA0
  have hD0 : 0 ≤ f32 (1 / (n : ℚ)) * f32 (f32 (gpa * ((n : ℚ) - 1)) + (grade : ℚ)) :=
    mul_nonneg hfA0 hC0
  have hDl := f32_lower _ hD0
  have hDu := f32_upper _ hD0
  have hu0 : (0 : ℚ) ≤ 1 - 1 / 2 ^ 24 := by norm_num
  have hu1 : (1 : ℚ) - 1 / 2 ^ 24 ≤ 1 := by norm_num
  have hv1 : (1 : ℚ) ≤ 1 + 1 / 2 ^ 24 := by norm_num
  -- the exact sum and the bounds on the rounded sum
  have hsumL : (1 - 1 / 2 ^ 24) ^ 2 * (gpa * ((n : ℚ) - 1) + (grade : ℚ)) ≤
      f32 (f32 (gpa * ((n : ℚ) - 1)) + (grade : ℚ)) := by
    have h1 : (1 - 1 / 2 ^ 24) * (gpa * ((n : ℚ) - 1) + (grade : ℚ)) ≤
        f32 (gpa * ((n : ℚ) - 1)) + (grade : ℚ) := by nlinarith
    have h2 := mul_le_mul_of_nonneg_left h1 hu0
    calc (1 - 1 / 2 ^ 24) ^ 2 * (gpa * ((n : ℚ) - 1) + (grade : ℚ))
        = (1 - 1 / 2 ^ 24) * ((1 - 1 / 2 ^ 24) * (gpa * ((n : ℚ) - 1) + (grade : ℚ))) := by ring
      _ ≤ (1 - 1 / 2 ^ 24) * (f32 (gpa * ((n : ℚ) - 1)) + (grade : ℚ)) := h2
      _ ≤ _ := hCl
  have hsumU : f32 (f32 (gpa * ((n : ℚ) - 1)) + (grade : ℚ)) ≤
      (1 + 1 / 2 ^ 24) ^ 2 * (gpa * ((n : ℚ) - 1) + (grade : ℚ)) := by
    have h1 : f32 (gpa * ((n : ℚ) - 1)) + (grade : ℚ) ≤
        (1 + 1 / 2 ^ 24) * (gpa * ((n : ℚ) - 1) + (grade : ℚ)) := by nlinarith
    have h2 := mul_le_mul_of_nonneg_left h1 (by norm_num : (0 : ℚ) ≤ 1 + 1 / 2 ^ 24)
    calc f32 (f32 (gpa * ((n : ℚ) - 1)) + (grade : ℚ))
        ≤ (1 + 1 / 2 ^ 24) * (f32 (gpa * ((n : ℚ) - 1)) + (grade : ℚ)) := hCu
      _ ≤ (1 + 1 / 2 ^ 24) * ((1 + 1 / 2 ^ 24) * (gpa * ((n : ℚ) - 1) + (grade : ℚ))) := h2
      _ = _ := by ring
  have hS : 0 ≤ gpa * ((n : ℚ) - 1) + (grade : ℚ) := add_nonneg hP hgq
  have hprodL : (1 - 1 / 2 ^ 24) ^ 3 * ((gpa * ((n : ℚ) - 1) + (grade : ℚ)) / (n : ℚ)) ≤
      f32 (1 / (n : ℚ)) * f32 (f32 (gpa * ((n : ℚ) - 1)) + (grade : ℚ)) := by
    have h1 := mul_le_mul hAl hsumL (by positivity) hfA0
    calc (1 - 1 / 2 ^ 24) ^ 3 * ((gpa * ((n : ℚ) - 1) + (grade : ℚ)) / (n : ℚ))
        = (1 - 1 / 2 ^ 24) * (1 / (n : ℚ)) *
            ((1 - 1 / 2 ^ 24) ^ 2 * (gpa * ((n : ℚ) - 1) + (grade : ℚ))) := by
          field_simp; ring
      _ ≤ _ := h1
  have hprodU : f32 (1 / (n : ℚ)) * f32 (f32 (gpa * ((n : ℚ) - 1)) + (grade : ℚ)) ≤
      (1 + 1 / 2 ^ 24) ^ 3 * ((gpa * ((n : ℚ) - 1) + (grade : ℚ)) / (n : ℚ)) := by
    have h1 := mul_le_mul hAu hsumU hC0 (by positivity)
    calc f32 (1 / (n : ℚ)) * f32 (f32 (gpa * ((n : ℚ) - 1)) + (grade : ℚ))
        ≤ (1 + 1 / 2 ^ 24) * (1 / (n : ℚ)) *
            ((1 + 1 / 2 ^ 24) ^ 2 * (gpa * ((n : ℚ) - 1) + (grade : ℚ))) := h1
      _ = _ := by field_simp; ring
  have hval : gpa_update gpa n grade =
      f32 (f32 (1 / (n : ℚ)) * f32 (f32 (gpa * ((n : ℚ) - 1)) + (grade : ℚ))) := by
    simp only [gpa_update, ea, ec, ee]
  rw [hval]
  constructor
  · calc (1 - 1 / 2 ^ 24) ^ 4 * ((gpa * ((n : ℚ) - 1) + (grade : ℚ)) / (n : ℚ))
        = (1 - 1 / 2 ^ 24) *
            ((1 - 1 / 2 ^ 24) ^ 3 * ((gpa * ((n : ℚ) - 1) + (grade : ℚ)) / (n : ℚ))) := by ring
      _ ≤ (1 - 1 / 2 ^ 24) *
            (f32 (1 / (n : ℚ)) * f32 (f32 (gpa * ((n : ℚ) - 1)) + (grade : ℚ))) :=
          mul_le_mul_of_nonneg_left hprodL hu0
      _ ≤ _ := hDl
  · calc f32 (f32 (1 / (n : ℚ)) * f32 (f32 (gpa * ((n : ℚ) - 1)) + (grade : ℚ)))
        ≤ (1 + 1 / 2 ^ 24) *
            (f32 (1 / (n : ℚ)) * f32 (f32 (gpa * ((n : ℚ) - 1)) + (grade : ℚ))) := hDu
      _ ≤ (1 + 1 / 2 ^ 24) *
            ((1 + 1 / 2 ^ 24) ^ 3 * ((gpa * ((n : ℚ) - 1) + (grade : ℚ)) / (n : ℚ))) :=
          mul_le_mul_of_nonneg_left hprodU (by norm_num)
      _ = _ := by ring

/-! ## The running-mean assignment at the sample grades -/

theorem gpa_update_first_90 : gpa_update 0 1 90 = 90 :=
  gpa_update_eval 0 1 90 1 1 0 0 90 90 90
    (f32_int 1 (by norm_num) (by norm_num))
    (f32_near _ 8388608 (-23) _ (by norm_num) (by norm_num) (by norm_num) (by norm_num)
      (by norm_num) (by norm_num))
    (f32_int 0 (by norm_num) (by norm_num))
    (by norm_num [f32_zero])
    (f32_int 90 (by norm_num) (by norm_num))
    (f32_near _ 11796480 (-17) _ (by norm_num) (by norm_num) (by norm_num) (by norm_num)
      (by norm_num) (by norm_num))
    (f32_near _ 11796480 (-17) _ (by norm_num) (by norm_num) (by norm_num) (by norm_num)
      (by norm_num) (by norm_num))

theorem gpa_update_zero_1 : gpa_update 0 1 0 = 0 :=
  gpa_update_eval 0 1 0 1 1 0 0 0 0 0
    (f32_int 1 (by norm_num) (by norm_num))
    (f32_near _ 8388608 (-23) _ (by norm_num) (by norm_num) (by norm_num) (by norm_num)
      (by norm_num) (by norm_num))
    (f32_int 0 (by norm_num) (by norm_num))
    (by norm_num [f32_zero])
    (f32_int 0 (by norm_num) (by norm_num))
    (by norm_num [f32_zero])
    (by norm_num [f32_zero])

theorem gpa_update_zero_2 : gpa_update 0 2 0 = 0 :=
  gpa_update_eval 0 2 0 2 (1 / 2) 1 0 0 0 0
    (f32_int 2 (by norm_num) (by norm_num))
    (f32_near _ 8388608 (-24) _ (by norm_num) (by norm_num) (by norm_num) (by norm_num)
      (by norm_num) (by norm_num))
    (f32_int 1 (by norm_num) (by norm_num))
    (by norm_num [f32_zero])
    (f32_int 0 (by norm_num) (by norm_num))
    (by norm_num [f32_zero])
    (by norm_num [f32_zero])

theorem gpa_update_third : gpa_update 0 3 1 = (11184811 / 33554432) :=
  gpa_update_eval 0 3 1 3 (11184811 / 33554432) 2 0 1 1 (11184811 / 33554432)
    (f32_int 3 (by norm_num) (by norm_num))
    (f32_near _ 11184811 (-25) _ (by norm_num) (by norm_num) (by norm_num) (by norm_num)
      (by norm_num) (by norm_num))
    (f32_int 2 (by norm_num) (by norm_num))
    (by norm_num [f32_zero])
    (f32_int 1 (by norm_num) (by norm_num))
    (f32_near _ 8388608 (-23) _ (by norm_num) (by norm_num) (by norm_num) (by norm_num)
      (by norm_num) (by norm_num))
    (f32_near _ 11184811 (-25) _ (by norm_num) (by norm_num) (by norm_num) (by norm_num)
      (by norm_num) (by norm_num))

theorem gpa_update_100_1 : gpa_update 0 1 100 = 100 :=
  gpa_update_eval 0 1 100 1 1 0 0 100 100 100
    (f32_int 1 (by norm_num) (by norm_num))
    (f32_near _ 8388608 (-23) _ (by norm_num) (by norm_num) (by norm_num) (by norm_num)
      (by norm_num) (by norm_num))
    (f32_int 0 (by norm_num) (by norm_num))
    (by norm_num [f32_zero])
    (f32_int 100 (by norm_num) (by norm_num))
    (f32_near _ 13107200 (-17) _ (by norm_num) (by norm_num) (by norm_num) (by norm_num)
      (by norm_num) (by norm_num))
    (f32_near _ 13107200 (-17) _ (by norm_num) (by norm_num) (by norm_num) (by norm_num)
      (by norm_num) (by norm_num))

theorem gpa_update_100_2 : gpa_update 100 2 100 = 100 :=
  gpa_update_eval 100 2 100 2 (1 / 2) 1 100 100 200 100
    (f32_int 2 (by norm_num) (by norm_num))
    (f32_near _ 8388608 (-24) _ (by norm_num) (by norm_num) (by norm_num) (by norm_num)
      (by norm_num) (by norm_num))
    (f32_int 1 (by norm_num) (by norm_num))
    (f32_near _ 13107200 (-17) _ (by norm_num) (by norm_num) (by norm_num) (by norm_num)
      (by norm_num) (by norm_num))
    (f32_int 100 (by norm_num) (by norm_num))
    (f32_near _ 13107200 (-16) _ (by norm_num) (by norm_num) (by norm_num) (by norm_num)
      (by norm_num) (by norm_num))
    (f32_near _ 13107200 (-17) _ (by norm_num) (by norm_num) (by norm_num) (by norm_num)
      (by norm_num) (by norm_num))

theorem gpa_update_100_3 : gpa_update 100 3 100 = 100 :=
  gpa_update_eval 100 3 100 3 (11184811 / 33554432) 2 200 100 300 100
    (f32_int 3 (by norm_num) (by norm_num))
    (f32_near _ 11184811 (-25) _ (by norm_num) (by norm_num) (by norm_num) (by norm_num)
      (by norm_num) (by norm_num))
    (f32_int 2 (by norm_num) (by norm_num))
    (f32_near _ 13107200 (-16) _ (by norm_num) (by norm_num) (by norm_num) (by norm_num)
      (by norm_num) (by norm_num))
    (f32_int 100 (by norm_num) (by norm_num))
    (f32_near _ 9830400 (-15) _ (by norm_num) (by norm_num) (by norm_num) (by norm_num)
      (by norm_num) (by norm_num))
    (f32_near _ 13107200 (-17) _ (by norm_num) (by norm_num) (by norm_num) (by norm_num)
      (by norm_num) (by norm_num))

theorem gpa_update_100_4 : gpa_update 100 4 100 = 100 :=
  gpa_update_eval 100 4 100 4 (1 / 4) 3 300 100 400 100
    (f32_int 4 (by norm_num) (by norm_num))
    (f32_near _ 8388608 (-25) _ (by norm_num) (by norm_num) (by norm_num) (by norm_num)
      (by norm_num) (by norm_num))
    (f32_int 3 (by norm_num) (by norm_num))
    (f32_near _ 9830400 (-15) _ (by norm_num) (by norm_num) (by norm_num) (by norm_num)
      (by norm_num) (by norm_num))
    (f32_int 100 (by norm_num) (by norm_num))
    (f32_near _ 13107200 (-15) _ (by norm_num) (by norm_num) (by norm_num) (by norm_num)
      (by norm_num) (by norm_num))
    (f32_near _ 13107200 (-17) _ (by norm_num) (by norm_num) (by norm_num) (by norm_num)
      (by norm_num) (by norm_num))

theorem gpa_update_100_5 : gpa_update 100 5 100 = 100 :=
  gpa_update_eval 100 5 100 5 (13421773 / 67108864) 4 400 100 500 100
    (f32_int 5 (by norm_num) (by norm_num))
    (f32_near _ 13421773 (-26) _ (by norm_num) (by norm_num) (by norm_num) (by norm_num)
      (by norm_num) (by norm_num))
    (f32_int 4 (by norm_num) (by norm_num))
    (f32_near _ 13107200 (-15) _ (by norm_num) (by norm_num) (by norm_num) (by norm_num)
      (by norm_num) (by norm_num))
    (f32_int 100 (by norm_num) (by norm_num))
    (f32_near _ 16384000 (-15) _ (by norm_num) (by norm_num) (by norm_num) (by norm_num)
      (by norm_num) (by norm_num))
    (f32_near _ 13107200 (-17) _ (by norm_num) (by norm_num) (by norm_num) (by norm_num)
      (by norm_num) (by norm_num))

theorem gpa_update_100_6 : gpa_update 100 6 100 = 100 :=
  gpa_update_eval 100 6 100 6 (11184811 / 67108864) 5 500 100 600 100
    (f32_int 6 (by norm_num) (by norm_num))
    (f32_near _ 11184811 (-26) _ (by norm_num) (by norm_num) (by norm_num) (by norm_num)
      (by norm_num) (by norm_num))
    (f32_int 5 (by norm_num) (by norm_num))
    (f32_near _ 16384000 (-15) _ (by norm_num) (by norm_num) (by norm_num) (by norm_num)
      (by norm_num) (by norm_num))
    (f32_int 100 (by norm_num) (by norm_num))
    (f32_near _ 9830400 (-14) _ (by norm_num) (by norm_num) (by norm_num) (by norm_num)
      (by norm_num) (by norm_num))
    (f32_near _ 13107200 (-17) _ (by norm_num) (by norm_num) (by norm_num) (by norm_num)
      (by norm_num) (by norm_num))

theorem gpa_update_100_7 : gpa_update 100 7 100 = (13107201 / 131072) :=
  gpa_update_eval 100 7 100 7 (9586981 / 67108864) 6 600 100 700 (13107201 / 131072)
    (f32_int 7 (by norm_num) (by norm_num))
    (f32_near _ 9586981 (-26) _ (by norm_num) (by norm_num) (by norm_num) (by norm_num)
      (by norm_num) (by norm_num))
    (f32_int 6 (by norm_num) (by norm_num))
    (f32_near _ 9830400 (-14) _ (by norm_num) (by norm_num) (by norm_num) (by norm_num)
      (by norm_num) (by norm_num))
    (f32_int 100 (by norm_num) (by norm_num))
    (f32_near _ 11468800 (-14) _ (by norm_num) (by norm_num) (by norm_num) (by norm_num)
      (by norm_num) (by norm_num))
    (f32_near _ 13107201 (-17) _ (by norm_num) (by norm_num) (by norm_num) (by norm_num)
      (by norm_num) (by norm_num))

/-! ## Basic facts about the loops -/

theorem list_begin_guard {α : Type} (l : List α) :
    ((list_begin l).isNone && list_size l != 0) = false := by
  cases l <;> simp [list_begin, list_size]

theorem id_exists_iff (l : List student_data) (id : Int) :
    id_exists l id = true ↔ ∃ s ∈ l, s.id = id := by
  induction l with
  | nil => simp [id_exists]
  | cons s rest ih =>
    by_cases h : s.id = id
    · simp [id_exists, h]
    · simp [id_exists, h, ih]

theorem id_exists_false_iff (l : List student_data) (id : Int) :
    id_exists l id = false ↔ ∀ s ∈ l, s.id ≠ id := by
  rw [← Bool.not_eq_true, id_exists_iff]
  simp

theorem course_exists_iff (l : List course_data) (name : String) :
    course_exists l name = true ↔ ∃ c ∈ l, c.name = name := by
  induction l with
  | nil => simp [course_exists]
  | cons c rest ih =>
    by_cases h : c.name = name
    · simp [course_exists, h]
    · simp [course_exists, h, ih]

theorem course_exists_false_iff (l : List course_data) (name : String) :
    course_exists l name = false ↔ ∀ c ∈ l, c.name ≠ name := by
  rw [← Bool.not_eq_true, course_exists_iff]
  simp

theorem find_student_none_iff (l : List student_data) (id : Int) :
    find_student l id = none ↔ ∀ s ∈ l, s.id ≠ id := by
  simp [find_student]

/-- A successful lookup splits the sequence at the first student with the id. -/
theorem find_student_split {l : List student_data} {id : Int} {s : student_data}
    (h : find_student l id = some s) :
    ∃ pre post, l = pre ++ s :: post ∧ (∀ t ∈ pre, t.id ≠ id) ∧ s.id = id := by
  induction l with
  | nil => simp [find_student] at h
  | cons t rest ih =>
    by_cases ht : t.id = id
    · have : t = s := by simpa [find_student, List.find?, ht] using h
      subst this
      exact ⟨[], rest, rfl, by simp, ht⟩
    · have h2 : find_student rest id = some s := by
        simpa [find_student, List.find?, ht] using h
      obtain ⟨pre, post, hl, hpre, hs⟩ := ih h2
      refine ⟨t :: pre, post, by simp [hl], ?_, hs⟩
      intro u hu
      rcases List.mem_cons.mp hu with rfl | hu
      · exact ht
      · exact hpre u hu

theorem find_student_of_split {pre post : List student_data} {id : Int} {s : student_data}
    (hpre : ∀ t ∈ pre, t.id ≠ id) (hs : s.id = id) :
    find_student (pre ++ s :: post) id = some s := by
  induction pre with
  | nil => simp [find_student, List.find?, hs]
  | cons t pre ih =>
    have ht : t.id ≠ id := hpre t (by simp)
    have := ih (fun u hu => hpre u (by simp [hu]))
    simpa [find_student, List.find?, ht] using this

theorem add_grade_loop_absent (a : Alloc) (name : String) (id grade : Int)
    (l : List student_data) (h : ∀ s ∈ l, s.id ≠ id) :
    add_grade_loop a name id grade l = (-1, l) := by
  induction l with
  | nil => rfl
  | cons s rest ih =>
    have hs : s.id ≠ id := h s (by simp)
    have := ih (fun t ht => h t (by simp [ht]))
    simp [add_grade_loop, hs, this]

theorem add_grade_loop_split (a : Alloc) (name : String) (id grade : Int)
    (pre post : List student_data) (s : student_data)
    (hpre : ∀ t ∈ pre, t.id ≠ id) (hs : s.id = id) :
    add_grade_loop a name id grade (pre ++ s :: post) =
      ((add_grade_student a s name grade).1,
        pre ++ (add_grade_student a s name grade).2 :: post) := by
  induction pre with
  | nil => simp [add_grade_loop, hs]
  | cons t pre ih =>
    have ht : t.id ≠ id := hpre t (by simp)
    have := ih (fun u hu => hpre u (by simp [hu]))
    simp [add_grade_loop, ht, this]

theorem add_grade_student_dup (a : Alloc) (s : student_data) (name : String) (grade : Int)
    (h : course_exists s.courses name = true) :
    add_grade_student a s name grade = (-1, s) := by
  simp [add_grade_student, list_begin_guard, h]

theorem add_grade_student_ok (s : student_data) (name : String) (grade : Int)
    (h : course_exists s.courses name = false) :
    add_grade_student Alloc.ok s name grade = (0, graded s name grade) := by
  simp [add_grade_student, list_begin_guard, h, Alloc.ok, list_push_back, course_data_clone,
    graded]

theorem add_grade_student_ret (a : Alloc) (s : student_data) (name : String) (grade : Int) :
    (add_grade_student a s name grade).1 = 0 ∨ (add_grade_student a s name grade).1 = -1 := by
  unfold add_grade_student
  simp only [list_begin_guard]
  cases course_exists s.courses name <;> cases a.name_buf <;>
    cases a.clone_name <;> simp [list_push_back, course_data_clone]

theorem add_grade_student_success {a : Alloc} {s : student_data} {name : String} {grade : Int}
    (h : (add_grade_student a s name grade).1 = 0) :
    course_exists s.courses name = false ∧
      (add_grade_student a s name grade).2 = graded s name grade := by
  unfold add_grade_student at h ⊢
  simp only [list_begin_guard] at h ⊢
  cases hc : course_exists s.courses name <;> cases hn : a.name_buf <;>
    cases h2 : a.clone_name <;>
    simp [list_push_back, course_data_clone, hc, hn, h2, graded] at h ⊢

theorem add_grade_student_id (a : Alloc) (s : student_data) (name : String) (grade : Int) :
    (add_grade_student a s name grade).2.id = s.id ∧
      (add_grade_student a s name grade).2.name = s.name := by
  unfold add_grade_student
  simp only [list_begin_guard]
  cases course_exists s.courses name <;> cases a.name_buf <;>
    cases a.clone_name <;> simp [list_push_back, course_data_clone]

theorem grades_add_grade_out_of_range (a : Alloc) (g : grades) (name : String)
    (id grade : Int) (h : grade < 0 ∨ grade > 100) :
    grades_add_grade a (some g) name id grade = (-1, some g) := by
  simp [grades_add_grade, h]

theorem grades_add_grade_in_range (a : Alloc) (g : grades) (name : String)
    (id grade : Int) (h0 : 0 ≤ grade) (h1 : grade ≤ 100) :
    grades_add_grade a (some g) name id grade =
      ((add_grade_loop a name id grade g.students).1,
        some { students := (add_grade_loop a name id grade g.students).2 }) := by
  have : ¬ (grade < 0 ∨ grade > 100) := by omega
  simp [grades_add_grade, this, list_begin_guard]

theorem grades_add_grade_absent (a : Alloc) (g : grades) (name : String) (id grade : Int)
    (h : ∀ s ∈ g.students, s.id ≠ id) :
    grades_add_grade a (some g) name id grade = (-1, some g) := by
  by_cases hr : grade < 0 ∨ grade > 100
  · exact grades_add_grade_out_of_range a g name id grade hr
  · rw [grades_add_grade_in_range a g name id grade (by omega) (by omega),
      add_grade_loop_absent a name id grade g.students h]

/-- Within the grade bounds, `grades_add_grade` acts on the student the lookup
identifies and on nothing else. -/
theorem grades_add_grade_found (a : Alloc) (g : grades) (name : String) (id grade : Int)
    (s : student_data) (h0 : 0 ≤ grade) (h1 : grade ≤ 100)
    (h : find_student g.students id = some s) :
    ∃ pre post, g.students = pre ++ s :: post ∧ (∀ t ∈ pre, t.id ≠ id) ∧ s.id = id ∧
      grades_add_grade a (some g) name id grade =
        ((add_grade_student a s name grade).1,
          some { students := pre ++ (add_grade_student a s name grade).2 :: post }) := by
  obtain ⟨pre, post, hl, hpre, hs⟩ := find_student_split h
  refine ⟨pre, post, hl, hpre, hs, ?_⟩
  rw [grades_add_grade_in_range a g name id grade h0 h1, hl,
    add_grade_loop_split a name id grade pre post s hpre hs]

theorem grades_add_grade_dup (a : Alloc) (g : grades) (name : String) (id grade : Int)
    (s : student_data) (h : find_student g.students id = some s)
    (hc : ∃ c ∈ s.courses, c.name = name) :
    grades_add_grade a (some g) name id grade = (-1, some g) := by
  by_cases hr : grade < 0 ∨ grade > 100
  · exact grades_add_grade_out_of_range a g name id grade hr
  · obtain ⟨pre, post, hl, -, -, he⟩ :=
      grades_add_grade_found a g name id grade s (by omega) (by omega) h
    rw [he, add_grade_student_dup a s name grade ((course_exists_iff _ _).mpr hc)]
    cases g
    simp_all

theorem grades_add_grade_new (g : grades) (name : String) (id grade : Int)
    (s : student_data) (h0 : 0 ≤ grade) (h1 : grade ≤ 100)
    (h : find_student g.students id = some s) (hc : ∀ c ∈ s.courses, c.name ≠ name) :
    ∃ pre post, g.students = pre ++ s :: post ∧ (∀ t ∈ pre, t.id ≠ id) ∧ s.id = id ∧
      grades_add_grade Alloc.ok (some g) name id grade =
        (0, some { students := pre ++ graded s name grade :: post }) := by
  obtain ⟨pre, post, hl, hpre, hs, he⟩ :=
    grades_add_grade_found Alloc.ok g name id grade s h0 h1 h
  refine ⟨pre, post, hl, hpre, hs, ?_⟩
  rw [he, add_grade_student_ok s name grade ((course_exists_false_iff _ _).mpr hc)]

/-- What a successful `grades_add_grade` did. -/
theorem grades_add_grade_success {a : Alloc} {g g1 : grades} {name : String} {id grade : Int}
    (h : grades_add_grade a (some g) name id grade = (0, some g1)) :
    ∃ pre s post, g.students = pre ++ s :: post ∧ (∀ t ∈ pre, t.id ≠ id) ∧ s.id = id ∧
      (∀ c ∈ s.courses, c.name ≠ name) ∧
      g1.students = pre ++ graded s name grade :: post := by
  by_cases hr : grade < 0 ∨ grade > 100
  · rw [grades_add_grade_out_of_range a g name id grade hr] at h
    simp at h
  · cases hf : find_student g.students id with
    | none =>
      rw [grades_add_grade_absent a g name id grade ((find_student_none_iff _ _).mp hf)] at h
      simp at h
    | some s =>
      obtain ⟨pre, post, hl, hpre, hs, he⟩ :=
        grades_add_grade_found a g name id grade s (by omega) (by omega) hf
      rw [he] at h
      have h1 : (add_grade_student a s name grade).1 = 0 := congrArg Prod.fst h
      obtain ⟨hc, h2⟩ := add_grade_student_success h1
      refine ⟨pre, s, post, hl, hpre, hs, (course_exists_false_iff _ _).mp hc, ?_⟩
      have h3 := congrArg Prod.snd h
      simp only [Option.some.injEq] at h3
      rw [← h3, h2]

theorem find_student_replace (pre post : List student_data) (s t : student_data) (j : Int)
    (hs : s.id ≠ j) (ht : t.id ≠ j) :
    find_student (pre ++ t :: post) j = find_student (pre ++ s :: post) j := by
  simp [find_student, List.find?_append, List.find?_cons, hs, ht]

theorem find_roster_two_7 : find_student roster_two.students 7 = some (fresh_student "Dana" 7) := by
  simp [find_student, roster_two, fresh_student]

theorem find_roster_two_8 : find_student roster_two.students 8 = some (fresh_student "Omer" 8) := by
  simp [find_student, roster_two, fresh_student]

theorem roster_two_add_algebra :
    grades_add_grade Alloc.ok (some roster_two) "Algebra" 7 90 = (0, some roster_algebra) := by
  simp [grades_add_grade, list_begin_guard, add_grade_loop, add_grade_student, course_exists,
    roster_two, roster_algebra, fresh_student, Alloc.ok, list_push_back, course_data_clone,
    gpa_update_first_90]

/-- After a successful `grades_add_grade` the lookup finds the updated record. -/
theorem find_after_success {a : Alloc} {g g1 : grades} {name : String} {id grade : Int}
    (h : grades_add_grade a (some g) name id grade = (0, some g1)) :
    ∃ s, find_student g.students id = some s ∧ (∀ c ∈ s.courses, c.name ≠ name) ∧
      find_student g1.students id = some (graded s name grade) ∧
      ∀ j, j ≠ id → find_student g1.students j = find_student g.students j := by
  obtain ⟨pre, s, post, hl, hpre, hs, hc, h1⟩ := grades_add_grade_success h
  refine ⟨s, ?_, hc, ?_, ?_⟩
  · rw [hl]; exact find_student_of_split hpre hs
  · rw [h1]; exact find_student_of_split hpre (by simpa [graded] using hs)
  · intro j hj
    rw [h1, hl]
    apply find_student_replace
    · rw [hs]; exact fun e => hj e.symm
    · simp only [graded]; rw [hs]; exact fun e => hj e.symm

theorem add_grade_loop_ids (a : Alloc) (name : String) (id grade : Int)
    (l : List student_data) :
    (add_grade_loop a name id grade l).2.map student_data.id = l.map student_data.id := by
  induction l with
  | nil => rfl
  | cons s rest ih =>
    by_cases h : s.id = id
    · simp [add_grade_loop, h, (add_grade_student_id a s name grade).1]
    · simp [add_grade_loop, h, ih]

/-- `grades_add_grade` on a roster yields a roster with the same id sequence. -/
theorem grades_add_grade_ids (a : Alloc) (g : grades) (name : String) (id grade : Int) :
    ∃ g1, (grades_add_grade a (some g) name id grade).2 = some g1 ∧
      g1.students.map student_data.id = g.students.map student_data.id := by
  by_cases hr : grade < 0 ∨ grade > 100
  · exact ⟨g, by rw [grades_add_grade_out_of_range a g name id grade hr], rfl⟩
  · rw [grades_add_grade_in_range a g name id grade (by omega) (by omega)]
    exact ⟨_, rfl, add_grade_loop_ids a name id grade g.students⟩

/-- `grades_add_student` either fails and keeps the roster or appends the new
record; it appends only when the id is new. -/
theorem grades_add_student_cases (a : Alloc) (g : grades) (name : String) (id : Int) :
    grades_add_student a (some g) name id = (-1, some g) ∨
      ((∀ s ∈ g.students, s.id ≠ id) ∧
        grades_add_student a (some g) name id =
          (0, some { students := g.students ++ [fresh_student name id] })) := by
  cases hex : id_exists g.students id with
  | true => left; simp [grades_add_student, list_begin_guard, hex]
  | false =>
    have hid := (id_exists_false_iff _ _).mp hex
    unfold grades_add_student
    simp only [list_begin_guard, hex]
    cases a.name_buf <;> cases a.list_new <;> cases a.clone_name <;>
      simp [list_init, list_push_back, student_data_clone, fresh_student]
    exact hid

theorem step_ids_nodup (g : grades) (c : Call)
    (h : (g.students.map student_data.id).Nodup) :
    ∃ g1, Call.step (some g) c = some g1 ∧ (g1.students.map student_data.id).Nodup := by
  cases c with
  | add_student a name id =>
    rcases grades_add_student_cases a g name id with e | ⟨hid, e⟩
    · exact ⟨g, by simp [Call.step, e], h⟩
    · refine ⟨{ students := g.students ++ [fresh_student name id] },
        by simp [Call.step, e], ?_⟩
      simp only [List.map_append, List.map_cons, List.map_nil]
      refine List.Nodup.append h (List.nodup_singleton _) ?_
      simp only [List.disjoint_singleton, fresh_student, List.mem_map, not_exists, not_and]
      exact fun s hs e => hid s hs e
  | add_grade a name id grade =>
    obtain ⟨g1, e, hids⟩ := grades_add_grade_ids a g name id grade
    exact ⟨g1, by simp [Call.step, e], by rw [hids]; exact h⟩

theorem run_ids_nodup (cs : List Call) (g : grades)
    (h : (g.students.map student_data.id).Nodup) :
    ∃ g1, run (some g) cs = some g1 ∧ (g1.students.map student_data.id).Nodup := by
  induction cs generalizing g with
  | nil => exact ⟨g, rfl, h⟩
  | cons c cs ih =>
    obtain ⟨g1, e, h1⟩ := step_ids_nodup g c h
    obtain ⟨g2, e2, h2⟩ := ih g1 h1
    exact ⟨g2, by simpa [run, e] using e2, h2⟩

/-! ## The running average of a grade sequence -/

theorem print_courses_eq (l : List course_data) : print_courses l = course_list_text l := by
  induction l with
  | nil => rfl
  | cons c rest ih =>
    cases rest with
    | nil => simp [print_courses, course_list_text, list_begin]
    | cons d rest =>
      rw [print_courses, ih]
      simp [course_list_text, list_begin]

theorem print_student_info_eq (s : student_data) :
    print_student_info s =
      (0, (s.name ++ " " ++ fmt_d s.id ++ ":") ++ course_list_text s.courses) := by
  cases hc : s.courses with
  | nil => simp [print_student_info, list_size, hc, course_list_text]
  | cons c rest =>
    simp [print_student_info, list_size, list_begin, hc, print_courses_eq]

theorem print_student_loop_found (l : List student_data) (id : Int) (s : student_data)
    (h : find_student l id = some s) :
    print_student_loop id l = (0, canonical_line s) := by
  induction l with
  | nil => simp [find_student] at h
  | cons t rest ih =>
    by_cases ht : t.id = id
    · have : t = s := by simpa [find_student, List.find?, ht] using h
      subst this
      simp [print_student_loop, ht, print_student_info_eq, canonical_line]
    · have h2 : find_student rest id = some s := by
        simpa [find_student, List.find?, ht] using h
      simp [print_student_loop, ht, ih h2]

theorem print_student_loop_absent (l : List student_data) (id : Int)
    (h : ∀ s ∈ l, s.id ≠ id) : print_student_loop id l = (-1, "") := by
  induction l with
  | nil => rfl
  | cons t rest ih =>
    have ht : t.id ≠ id := h t (by simp)
    simp [print_student_loop, ht, ih (fun u hu => h u (by simp [hu]))]

theorem grades_print_student_eq_loop (g : grades) (id : Int) :
    grades_print_student (some g) id = print_student_loop id g.students := by
  cases hs : g.students with
  | nil => simp [grades_print_student, list_size, hs, print_student_loop]
  | cons t rest => simp [grades_print_student, list_size, list_begin, hs]

theorem grades_print_student_found (g : grades) (id : Int) (s : student_data)
    (h : find_student g.students id = some s) :
    grades_print_student (some g) id = (0, canonical_line s) := by
  rw [grades_print_student_eq_loop, print_student_loop_found g.students id s h]

theorem print_all_loop_eq (l : List student_data) :
    print_all_loop l = (0, concat_text (l.map canonical_line)) := by
  induction l with
  | nil => rfl
  | cons t rest ih =>
    simp [print_all_loop, print_student_info_eq, ih, concat_text, canonical_line]

theorem grades_print_all_eq (g : grades) :
    grades_print_all (some g) = (0, concat_text (g.students.map canonical_line)) := by
  cases hs : g.students with
  | nil => simp [grades_print_all, list_size, hs, concat_text]
  | cons t rest =>
    simp only [grades_print_all, list_size, list_begin, hs]
    simpa using print_all_loop_eq (t :: rest)

/-- The course part ends with the text of the last course: nothing, and in
particular no comma, follows it. -/
theorem course_list_text_snoc (l : List course_data) (c : course_data) :
    course_list_text (l ++ [c]) =
      (if l = [] then "" else course_list_text l ++ ",") ++
        (" " ++ c.name ++ " " ++ fmt_d c.grade) := by
  induction l with
  | nil => simp [course_list_text]
  | cons d rest ih =>
    cases rest with
    | nil => simp [course_list_text, String.append_assoc]
    | cons e rest =>
      have h1 : course_list_text (d :: e :: (rest ++ [c])) =
          (" " ++ d.name ++ " " ++ fmt_d d.grade) ++
            ("," ++ course_list_text (e :: (rest ++ [c]))) := rfl
      have h2 : course_list_text (d :: e :: rest) =
          (" " ++ d.name ++ " " ++ fmt_d d.grade) ++ ("," ++ course_list_text (e :: rest)) := rfl
      simp only [List.cons_append, reduceCtorEq, if_false] at ih ⊢
      rw [h1, ih, h2]
      simp [String.append_assoc]

theorem find_student_of_mem_nodup (l : List student_data) (s : student_data)
    (hn : (l.map student_data.id).Nodup) (hs : s ∈ l) :
    find_student l s.id = some s := by
  induction l with
  | nil => simp at hs
  | cons t rest ih =>
    rw [List.map_cons, List.nodup_cons] at hn
    rcases List.mem_cons.mp hs with rfl | hs
    · simp [find_student, List.find?]
    · have hne : t.id ≠ s.id := by
        intro e
        exact hn.1 (by rw [e]; exact List.mem_map_of_mem _ hs)
      have := ih hn.2 hs
      simpa [find_student, List.find?, hne] using this

/-! ## What `grades_add_grade` can do to a record, failures included -/

/-- The record after the body of `grades_add_grade` is the old one, or the one
with count and average updated, with or without the new course. -/
theorem add_grade_student_shape (a : Alloc) (s : student_data) (name : String) (grade : Int) :
    (add_grade_student a s name grade).2 = s ∨
      ∃ cs, (cs = s.courses ∨ cs = s.courses ++ [{ name := name, grade := grade }]) ∧
        (add_grade_student a s name grade).2 =
          { courses := cs, name := s.name,
            gpa := gpa_update s.gpa (s.num_courses + 1) grade,
            id := s.id, num_courses := s.num_courses + 1 } := by
  unfold add_grade_student
  simp only [list_begin_guard]
  cases course_exists s.courses name <;> cases a.name_buf <;>
    cases a.clone_name <;> simp [list_push_back, course_data_clone]

theorem add_grade_student_frame (a : Alloc) (i : Int) (s : student_data) (name : String)
    (grade : Int) (hs : s.id = i) :
    frame_rel i s (add_grade_student a s name grade).2 := by
  rcases add_grade_student_shape a s name grade with e | ⟨cs, hcs, e⟩
  · rw [e]
    exact ⟨rfl, rfl, fun _ => rfl, List.prefix_refl _⟩
  · rw [e]
    refine ⟨rfl, rfl, fun h => absurd hs h, ?_⟩
    rcases hcs with rfl | rfl
    · exact List.prefix_refl _
    · exact List.prefix_append _ _

theorem frame_rel_refl (i : Int) (s : student_data) : frame_rel i s s :=
  ⟨rfl, rfl, fun _ => rfl, List.prefix_refl _⟩

theorem add_grade_loop_frame (a : Alloc) (name : String) (i grade : Int)
    (l : List student_data) :
    List.Forall₂ (frame_rel i) l (add_grade_loop a name i grade l).2 := by
  induction l with
  | nil => exact List.Forall₂.nil
  | cons s rest ih =>
    by_cases h : s.id = i
    · simp only [add_grade_loop, h, if_true]
      refine List.Forall₂.cons (add_grade_student_frame a i s name grade h) ?_
      exact List.forall₂_same.mpr (fun t _ => frame_rel_refl i t)
    · simp only [add_grade_loop, h, if_false]
      exact List.Forall₂.cons (frame_rel_refl i s) ih

theorem grades_add_grade_frame (a : Alloc) (g : grades) (name : String) (i grade : Int) :
    ∃ g1, (grades_add_grade a (some g) name i grade).2 = some g1 ∧
      List.Forall₂ (frame_rel i) g.students g1.students := by
  by_cases hr : grade < 0 ∨ grade > 100
  · exact ⟨g, by rw [grades_add_grade_out_of_range a g name i grade hr],
      List.forall₂_same.mpr (fun t _ => frame_rel_refl i t)⟩
  · rw [grades_add_grade_in_range a g name i grade (by omega) (by omega)]
    exact ⟨_, rfl, add_grade_loop_frame a name i grade g.students⟩

/-! ## The average is never negative -/

theorem add_grade_student_bounded (a : Alloc) (s : student_data) (name : String) (grade : Int)
    (h0 : 0 ≤ grade) (hs : bounded s) :
    bounded (add_grade_student a s name grade).2 := by
  rcases add_grade_student_shape a s name grade with e | ⟨cs, -, e⟩
  · rw [e]; exact hs
  · rw [e]
    obtain ⟨hn, hg0⟩ := hs
    exact ⟨by show 0 ≤ s.num_courses + 1; omega,
      gpa_update_nonneg s.gpa (s.num_courses + 1) grade hg0 (by omega) h0⟩

theorem add_grade_loop_bounded (a : Alloc) (name : String) (id grade : Int)
    (h0 : 0 ≤ grade) (l : List student_data)
    (h : ∀ s ∈ l, bounded s) :
    ∀ s ∈ (add_grade_loop a name id grade l).2, bounded s := by
  induction l with
  | nil => simp [add_grade_loop]
  | cons t rest ih =>
    have ht : bounded t := h t (by simp)
    have hrest : ∀ s ∈ rest, bounded s := fun u hu => h u (by simp [hu])
    by_cases hid : t.id = id
    · simp only [add_grade_loop, hid, if_true]
      intro u hu
      rcases List.mem_cons.mp hu with rfl | hu
      · exact add_grade_student_bounded a t name grade h0 ht
      · exact hrest u hu
    · simp only [add_grade_loop, hid, if_false]
      intro u hu
      rcases List.mem_cons.mp hu with rfl | hu
      · exact ht
      · exact ih hrest u hu

theorem step_bounded (g : grades) (c : Call) (h : ∀ s ∈ g.students, bounded s) :
    ∃ g1, Call.step (some g) c = some g1 ∧ ∀ s ∈ g1.students, bounded s := by
  cases c with
  | add_student a n i =>
    rcases grades_add_student_cases a g n i with e | ⟨-, e⟩
    · exact ⟨g, by simp [Call.step, e], h⟩
    · refine ⟨{ students := g.students ++ [fresh_student n i] }, by simp [Call.step, e], ?_⟩
      intro s hs
      rcases List.mem_append.mp hs with hs | hs
      · exact h s hs
      · rw [List.mem_singleton.mp hs]
        simp [bounded, fresh_student]
  | add_grade a n i gr =>
    by_cases hr : gr < 0 ∨ gr > 100
    · exact ⟨g, by simp [Call.step, grades_add_grade_out_of_range a g n i gr hr], h⟩
    · refine ⟨{ students := (add_grade_loop a n i gr g.students).2 },
        by simp [Call.step, grades_add_grade_in_range a g n i gr (by omega) (by omega)], ?_⟩
      exact add_grade_loop_bounded a n i gr (by omega) g.students h

theorem run_bounded (cs : List Call) (g : grades) (h : ∀ s ∈ g.students, bounded s) :
    ∃ g1, run (some g) cs = some g1 ∧ ∀ s ∈ g1.students, bounded s := by
  induction cs generalizing g with
  | nil => exact ⟨g, rfl, h⟩
  | cons c cs ih =>
    obtain ⟨g1, e, h1⟩ := step_bounded g c h
    obtain ⟨g2, e2, h2⟩ := ih g1 h1
    exact ⟨g2, by simpa [run, e] using e2, h2⟩

/-- `grades_calc_avg` either produces no name and returns -1, or produces the
name and returns the average of a stored student with that id. -/
theorem calc_avg_loop_cases (a : Alloc) (id : Int) (l : List student_data) :
    calc_avg_loop a id l = (none, -1) ∨
      ∃ s ∈ l, s.id = id ∧ a.name_buf = true ∧ calc_avg_loop a id l = (some s.name, s.gpa) := by
  induction l with
  | nil => exact Or.inl rfl
  | cons t rest ih =>
    by_cases ht : t.id = id
    · cases hb : a.name_buf with
      | false => left; simp [calc_avg_loop, ht, hb]
      | true => right; exact ⟨t, by simp, ht, rfl, by simp [calc_avg_loop, ht, hb]⟩
    · rcases ih with e | ⟨s, hs, hid, hb, e⟩
      · left; simp [calc_avg_loop, ht, e]
      · right; exact ⟨s, by simp [hs], hid, hb, by simp [calc_avg_loop, ht, e]⟩

theorem calc_avg_loop_found_buf (a : Alloc) (l : List student_data) (id : Int)
    (s : student_data) (hb : a.name_buf = true) (h : find_student l id = some s) :
    calc_avg_loop a id l = (some s.name, s.gpa) := by
  induction l with
  | nil => simp [find_student] at h
  | cons t rest ih =>
    by_cases ht : t.id = id
    · have : t = s := by simpa [find_student, List.find?, ht] using h
      subst this
      simp [calc_avg_loop, ht, hb]
    · have h2 : find_student rest id = some s := by
        simpa [find_student, List.find?, ht] using h
      simp [calc_avg_loop, ht, ih h2]

theorem calc_avg_loop_absent (a : Alloc) (id : Int) (l : List student_data)
    (h : ∀ s ∈ l, s.id ≠ id) : calc_avg_loop a id l = (none, -1) := by
  induction l with
  | nil => rfl
  | cons t rest ih =>
    have ht : t.id ≠ id := h t (by simp)
    simp [calc_avg_loop, ht, ih (fun u hu => h u (by simp [hu]))]

/-! ## `grades_add_student` -/

/-- C1: `grades_add_student` with an id that a stored student already has
returns -1 and leaves the roster exactly as it was, whatever the name and the
allocation outcomes. -/
theorem add_student_existing_id (a : Alloc) (g : grades) (name : String) (id : Int)
    (h : ∃ s ∈ g.students, s.id = id) :
    grades_add_student a (some g) name id = (-1, some g) := by
  have hex : id_exists g.students id = true := (id_exists_iff _ _).mpr h
  simp [grades_add_student, list_begin_guard, hex]

theorem add_student_existing_id_witness :
    (∃ s ∈ (grades.mk [fresh_student "Dana" 7]).students, s.id = 7) ∧
      grades_add_student Alloc.ok (some (grades.mk [fresh_student "Dana" 7])) "Omer" 7 =
        (-1, some (grades.mk [fresh_student "Dana" 7])) :=
  ⟨⟨fresh_student "Dana" 7, by simp, rfl⟩,
    add_student_existing_id Alloc.ok (grades.mk [fresh_student "Dana" 7]) "Omer" 7
      ⟨fresh_student "Dana" 7, by simp, rfl⟩⟩

theorem add_student_fresh (g : grades) (name : String) (id : Int)
    (h : ∀ s ∈ g.students, s.id ≠ id) :
    grades_add_student Alloc.ok (some g) name id =
      (0, some { students := g.students ++ [fresh_student name id] }) := by
  have hex : id_exists g.students id = false := (id_exists_false_iff _ _).mpr h
  simp [grades_add_student, list_begin_guard, hex, Alloc.ok, list_init, list_push_back,
    student_data_clone, fresh_student]

/-- C3: when no stored student has the id and every allocation succeeds,
`grades_add_student` returns 0 and the new roster is the old student sequence
followed by one new last student with the given name and id, gpa 0,
num_courses 0 and an empty course list. -/
theorem add_student_appends (g : grades) (name : String) (id : Int)
    (h : ∀ s ∈ g.students, s.id ≠ id) :
    grades_add_student Alloc.ok (some g) name id =
      (0, some { students := g.students ++
        [{ courses := [], name := name, gpa := 0, id := id, num_courses := 0 }] }) :=
  add_student_fresh g name id h

theorem add_student_appends_witness :
    (∀ s ∈ (grades.mk [fresh_student "Dana" 7]).students, s.id ≠ 8) ∧
      grades_add_student Alloc.ok (some (grades.mk [fresh_student "Dana" 7])) "Omer" 8 =
        (0, some { students := (grades.mk [fresh_student "Dana" 7]).students ++
          [{ courses := [], name := "Omer", gpa := 0, id := 8, num_courses := 0 }] }) :=
  ⟨by simp [fresh_student],
    add_student_appends (grades.mk [fresh_student "Dana" 7]) "Omer" 8
      (by simp [fresh_student])⟩

/-- C2: every roster reached from the empty roster of `grades_init` by a
finite sequence of `grades_add_student` and `grades_add_grade` calls, whether
they succeed or fail and whatever the allocation outcomes, exists and stores
students with pairwise distinct ids. -/
theorem reachable_ids_distinct (cs : List Call) :
    ∃ r, run (grades_init true) cs = some r ∧ (r.students.map student_data.id).Nodup :=
  run_ids_nodup cs { students := [] } (by simp)

/-! ## `grades_add_grade` -/

/-- C4: `grades_add_grade` returns -1 and leaves the roster unchanged
whenever grade < 0 or grade > 100 (in particular for -1 and 101); for grade 0
and grade 100 it returns 0 when the id identifies a stored student, that
student has no course of that name, and every allocation succeeds. -/
theorem add_grade_bounds (a : Alloc) (g : grades) (name : String) (id : Int) :
    (∀ grade : Int, grade < 0 ∨ grade > 100 →
      grades_add_grade a (some g) name id grade = (-1, some g)) ∧
    grades_add_grade a (some g) name id (-1) = (-1, some g) ∧
    grades_add_grade a (some g) name id 101 = (-1, some g) ∧
    (∀ s, find_student g.students id = some s → (∀ c ∈ s.courses, c.name ≠ name) →
      (grades_add_grade Alloc.ok (some g) name id 0).1 = 0 ∧
      (grades_add_grade Alloc.ok (some g) name id 100).1 = 0) := by
  refine ⟨fun grade h => grades_add_grade_out_of_range a g name id grade h,
    grades_add_grade_out_of_range a g name id (-1) (by decide),
    grades_add_grade_out_of_range a g name id 101 (by decide), ?_⟩
  intro s hs hc
  obtain ⟨_, _, _, _, _, e0⟩ := grades_add_grade_new g name id 0 s (by decide) (by decide) hs hc
  obtain ⟨_, _, _, _, _, e1⟩ := grades_add_grade_new g name id 100 s (by decide) (by decide) hs hc
  rw [e0, e1]
  exact ⟨rfl, rfl⟩

theorem add_grade_bounds_witness :
    grades_add_grade Alloc.ok (some roster_two) "Algebra" 7 (-5) = (-1, some roster_two) ∧
      (grades_add_grade Alloc.ok (some roster_two) "Algebra" 7 0).1 = 0 ∧
      (grades_add_grade Alloc.ok (some roster_two) "Algebra" 7 100).1 = 0 :=
  ⟨(add_grade_bounds Alloc.ok roster_two "Algebra" 7).1 (-5) (Or.inl (by decide)),
    ((add_grade_bounds Alloc.ok roster_two "Algebra" 7).2.2.2 (fresh_student "Dana" 7)
      find_roster_two_7 (by simp [fresh_student])).1,
    ((add_grade_bounds Alloc.ok roster_two "Algebra" 7).2.2.2 (fresh_student "Dana" 7)
      find_roster_two_7 (by simp [fresh_student])).2⟩

/-- C6: `grades_add_grade` with an id that no stored student has returns -1
and leaves the roster unchanged, for every course name, grade and allocation
outcome; the empty roster is the special case without students. -/
theorem add_grade_unknown_id (a : Alloc) (g : grades) (name : String) (id grade : Int)
    (h : ∀ s ∈ g.students, s.id ≠ id) :
    grades_add_grade a (some g) name id grade = (-1, some g) :=
  grades_add_grade_absent a g name id grade h

theorem add_grade_unknown_id_witness :
    (∀ s ∈ roster_two.students, s.id ≠ 9) ∧
      grades_add_grade Alloc.ok (some roster_two) "Algebra" 9 50 = (-1, some roster_two) ∧
      grades_add_grade Alloc.ok (some (grades.mk [])) "Algebra" 9 50 =
        (-1, some (grades.mk [])) :=
  ⟨by simp [roster_two, fresh_student],
    add_grade_unknown_id Alloc.ok roster_two "Algebra" 9 50 (by simp [roster_two, fresh_student]),
    add_grade_unknown_id Alloc.ok (grades.mk []) "Algebra" 9 50 (by simp)⟩

/-- C7 (the claim as stated fails on the code): the stored average is a
binary32 value.  Student 7 of `roster_zeros`, a roster built through the
operations, has gpa 0 and two courses; a successful `grades_add_grade` with
grade 1 stores gpa = 11184811/33554432, not (0 * (3 - 1) + 1) / 3 = 1/3. -/
theorem add_grade_gpa_not_exact :
    run (grades_init true) two_zeros = some roster_zeros ∧
      grades_add_grade Alloc.ok (some roster_zeros) "Logic" 7 1 = (0, some roster_third) ∧
      find_student roster_third.students 7 =
        some { courses := [{ name := "Algebra", grade := 0 }, { name := "Physics", grade := 0 },
                           { name := "Logic", grade := 1 }],
               name := "Dana", gpa := 11184811 / 33554432, id := 7, num_courses := 3 } ∧
      (11184811 / 33554432 : ℚ) ≠
        ((0 : ℚ) * (((2 + 1 : Int) : ℚ) - 1) + ((1 : Int) : ℚ)) / ((2 + 1 : Int) : ℚ) := by
  refine ⟨?_, ?_, ?_, by norm_num⟩
  · simp [run, two_zeros, roster_zeros, Call.step, grades_init, list_init, grades_add_student,
      grades_add_grade, list_begin_guard, id_exists, add_grade_loop, add_grade_student,
      course_exists, Alloc.ok, list_push_back, student_data_clone, course_data_clone,
      gpa_update_zero_1, gpa_update_zero_2]
  · simp [roster_zeros, roster_third, grades_add_grade, list_begin_guard, add_grade_loop,
      add_grade_student, course_exists, Alloc.ok, list_push_back, course_data_clone,
      gpa_update_third]
  · simp [find_student, roster_third]

/-- C7 (amended): when `grades_add_grade` succeeds for student id with course
name c and grade g, the roster changes only at the student the id identifies
(the first one with that id): its num_courses becomes n = old + 1, its course
list becomes the old list followed by the one new last course (c, g), and its
gpa becomes the binary32 evaluation of (1/n) * (old_gpa * (n - 1) + g) from the
pre-insertion gpa and the post-increment n, every conversion and operation
rounded.  For a non-negative old gpa and grade and n below 2^24 that value is
the exact (old_gpa * (n - 1) + g) / n up to the factor (1 ± 2^-24)^4. -/
theorem add_grade_success_effect (a : Alloc) (g g1 : grades) (name : String) (id grade : Int)
    (h : grades_add_grade a (some g) name id grade = (0, some g1)) :
    ∃ pre s post, g.students = pre ++ s :: post ∧ (∀ t ∈ pre, t.id ≠ id) ∧ s.id = id ∧
      g1.students = pre ++
        { courses := s.courses ++ [{ name := name, grade := grade }],
          name := s.name,
          gpa := f32 (f32 (1 / f32 ((s.num_courses + 1 : Int) : ℚ)) *
            f32 (f32 (s.gpa * f32 ((s.num_courses + 1 - 1 : Int) : ℚ)) + f32 (grade : ℚ))),
          id := s.id,
          num_courses := s.num_courses + 1 } :: post ∧
      (0 ≤ s.gpa → 0 ≤ s.num_courses → s.num_courses + 1 < 2 ^ 24 →
        (1 - 1 / 2 ^ 24) ^ 4 *
            ((s.gpa * (((s.num_courses + 1 : Int) : ℚ) - 1) + (grade : ℚ)) /
              ((s.num_courses + 1 : Int) : ℚ)) ≤
          f32 (f32 (1 / f32 ((s.num_courses + 1 : Int) : ℚ)) *
            f32 (f32 (s.gpa * f32 ((s.num_courses + 1 - 1 : Int) : ℚ)) + f32 (grade : ℚ))) ∧
        f32 (f32 (1 / f32 ((s.num_courses + 1 : Int) : ℚ)) *
            f32 (f32 (s.gpa * f32 ((s.num_courses + 1 - 1 : Int) : ℚ)) + f32 (grade : ℚ))) ≤
          (1 + 1 / 2 ^ 24) ^ 4 *
            ((s.gpa * (((s.num_courses + 1 : Int) : ℚ) - 1) + (grade : ℚ)) /
              ((s.num_courses + 1 : Int) : ℚ))) := by
  have hrange : 0 ≤ grade ∧ grade ≤ 100 := by
    by_contra hr
    rw [grades_add_grade_out_of_range a g name id grade (by omega)] at h
    simp at h
  obtain ⟨pre, s, post, hl, hpre, hs, -, h1⟩ := grades_add_grade_success h
  refine ⟨pre, s, post, hl, hpre, hs, h1, ?_⟩
  intro hg hn0 hn1
  exact gpa_update_accuracy s.gpa (s.num_courses + 1) grade hg (by omega) hn1 hrange.1
    (by have := hrange.2; norm_num; omega)

theorem add_grade_success_effect_witness :
    ∃ pre s post, roster_two.students = pre ++ s :: post ∧ (∀ t ∈ pre, t.id ≠ 7) ∧ s.id = 7 ∧
      roster_algebra.students = pre ++
        { courses := s.courses ++ [{ name := "Algebra", grade := 90 }],
          name := s.name,
          gpa := f32 (f32 (1 / f32 ((s.num_courses + 1 : Int) : ℚ)) *
            f32 (f32 (s.gpa * f32 ((s.num_courses + 1 - 1 : Int) : ℚ)) + f32 ((90 : Int) : ℚ))),
          id := s.id,
          num_courses := s.num_courses + 1 } :: post ∧
      (0 ≤ s.gpa → 0 ≤ s.num_courses → s.num_courses + 1 < 2 ^ 24 →
        (1 - 1 / 2 ^ 24) ^ 4 *
            ((s.gpa * (((s.num_courses + 1 : Int) : ℚ) - 1) + ((90 : Int) : ℚ)) /
              ((s.num_courses + 1 : Int) : ℚ)) ≤
          f32 (f32 (1 / f32 ((s.num_courses + 1 : Int) : ℚ)) *
            f32 (f32 (s.gpa * f32 ((s.num_courses + 1 - 1 : Int) : ℚ)) + f32 ((90 : Int) : ℚ))) ∧
        f32 (f32 (1 / f32 ((s.num_courses + 1 : Int) : ℚ)) *
            f32 (f32 (s.gpa * f32 ((s.num_courses + 1 - 1 : Int) : ℚ)) + f32 ((90 : Int) : ℚ))) ≤
          (1 + 1 / 2 ^ 24) ^ 4 *
            ((s.gpa * (((s.num_courses + 1 : Int) : ℚ) - 1) + ((90 : Int) : ℚ)) /
              ((s.num_courses + 1 : Int) : ℚ))) :=
  add_grade_success_effect Alloc.ok roster_two roster_algebra "Algebra" 7 90
    roster_two_add_algebra

/-- C5: for a stored student and a grade in [0,100] with every allocation
succeeding, `grades_add_grade` returns -1 exactly when the identified student
already has a course with an equal name.  Adding the same name a second time
to the same student returns -1 and leaves the roster as the first call left
it; any other name that the student does not have yet (for instance one that
differs only in letter case) is still accepted; and the same course name is
accepted for a different student who does not have it. -/
theorem add_grade_course_unique :
    (∀ (g : grades) (id : Int) (s : student_data) (name : String) (grade : Int),
      find_student g.students id = some s → 0 ≤ grade → grade ≤ 100 →
      ((grades_add_grade Alloc.ok (some g) name id grade).1 = -1 ↔
        ∃ c ∈ s.courses, c.name = name)) ∧
    (∀ (a b : Alloc) (g g1 : grades) (id : Int) (name : String) (grade grade2 : Int),
      grades_add_grade a (some g) name id grade = (0, some g1) →
      grades_add_grade b (some g1) name id grade2 = (-1, some g1)) ∧
    (∀ (a : Alloc) (g g1 : grades) (id : Int) (s : student_data) (name name2 : String)
      (grade grade2 : Int),
      grades_add_grade a (some g) name id grade = (0, some g1) →
      find_student g.students id = some s → (∀ c ∈ s.courses, c.name ≠ name2) →
      name2 ≠ name → 0 ≤ grade2 → grade2 ≤ 100 →
      (grades_add_grade Alloc.ok (some g1) name2 id grade2).1 = 0) ∧
    (∀ (a : Alloc) (g g1 : grades) (i j : Int) (sj : student_data) (name : String)
      (gi gj : Int),
      grades_add_grade a (some g) name i gi = (0, some g1) → j ≠ i →
      find_student g.students j = some sj → (∀ c ∈ sj.courses, c.name ≠ name) →
      0 ≤ gj → gj ≤ 100 →
      (grades_add_grade Alloc.ok (some g1) name j gj).1 = 0) := by
  refine ⟨?_, ?_, ?_, ?_⟩
  · intro g id s name grade hf h0 h1
    by_cases hc : ∃ c ∈ s.courses, c.name = name
    · simp [grades_add_grade_dup Alloc.ok g name id grade s hf hc, hc]
    · have hc2 : ∀ c ∈ s.courses, c.name ≠ name := by
        intro c hm e
        exact hc ⟨c, hm, e⟩
      obtain ⟨_, _, _, _, _, e⟩ := grades_add_grade_new g name id grade s h0 h1 hf hc2
      simp [e, hc]
  · intro a b g g1 id name grade grade2 h
    obtain ⟨s, -, -, hf1, -⟩ := find_after_success h
    exact grades_add_grade_dup b g1 name id grade2 _ hf1
      ⟨{ name := name, grade := grade }, by simp [graded], rfl⟩
  · intro a g g1 id s name name2 grade grade2 h hf hc hne h0 h1
    obtain ⟨t, hft, -, hf1, -⟩ := find_after_success h
    have hts : t = s := by
      rw [hft] at hf
      exact Option.some.inj hf
    subst hts
    have hc1 : ∀ c ∈ (graded t name grade).courses, c.name ≠ name2 := by
      intro c hm
      simp only [graded, List.mem_append, List.mem_singleton] at hm
      rcases hm with hm | rfl
      · exact hc c hm
      · exact fun e => hne e.symm
    obtain ⟨_, _, _, _, _, e⟩ := grades_add_grade_new g1 name2 id grade2 _ h0 h1 hf1 hc1
    rw [e]
  · intro a g g1 i j sj name gi gj h hji hf hc h0 h1
    obtain ⟨t, -, -, -, hfr⟩ := find_after_success h
    have hf1 : find_student g1.students j = some sj := by rw [hfr j hji, hf]
    obtain ⟨_, _, _, _, _, e⟩ := grades_add_grade_new g1 name j gj sj h0 h1 hf1 hc
    rw [e]

theorem add_grade_course_unique_witness :
    ((grades_add_grade Alloc.ok (some roster_two) "Algebra" 7 90).1 = -1 ↔
        ∃ c ∈ (fresh_student "Dana" 7).courses, c.name = "Algebra") ∧
      grades_add_grade Alloc.ok (some roster_algebra) "Algebra" 7 55 =
        (-1, some roster_algebra) ∧
      (grades_add_grade Alloc.ok (some roster_algebra) "algebra" 7 55).1 = 0 ∧
      (grades_add_grade Alloc.ok (some roster_algebra) "Algebra" 8 55).1 = 0 :=
  ⟨add_grade_course_unique.1 roster_two 7 (fresh_student "Dana" 7) "Algebra" 90
      find_roster_two_7 (by decide) (by decide),
    add_grade_course_unique.2.1 Alloc.ok Alloc.ok roster_two roster_algebra 7 "Algebra" 90 55
      roster_two_add_algebra,
    add_grade_course_unique.2.2.1 Alloc.ok roster_two roster_algebra 7 (fresh_student "Dana" 7)
      "Algebra" "algebra" 90 55 roster_two_add_algebra find_roster_two_7
      (by simp [fresh_student]) (by decide) (by decide) (by decide),
    add_grade_course_unique.2.2.2 Alloc.ok roster_two roster_algebra 7 8
      (fresh_student "Omer" 8) "Algebra" 90 55 roster_two_add_algebra (by decide)
      find_roster_two_8 (by simp [fresh_student]) (by decide) (by decide)⟩

/-- C9 (the code departs from the claim): validation passes for student 7 of
`roster_two`, and when the name buffer of the new course cannot be allocated,
or `list_push_back` fails because its clone callback cannot allocate,
`grades_add_grade` returns -1 but keeps num_courses = 1 and gpa = 90 in the
student whose course list is still empty. -/
theorem add_grade_failure_keeps_update :
    grades_add_grade Alloc.no_name_buf (some roster_two) "Algebra" 7 90 =
        (-1, some roster_torn) ∧
      grades_add_grade Alloc.no_clone (some roster_two) "Algebra" 7 90 =
        (-1, some roster_torn) ∧
      roster_torn ≠ roster_two := by
  refine ⟨?_, ?_, ?_⟩
  · simp [grades_add_grade, list_begin_guard, add_grade_loop, add_grade_student, course_exists,
      roster_two, roster_torn, fresh_student, Alloc.no_name_buf, gpa_update_first_90]
  · simp [grades_add_grade, list_begin_guard, add_grade_loop, add_grade_student, course_exists,
      roster_two, roster_torn, fresh_student, Alloc.no_clone, list_push_back, course_data_clone,
      gpa_update_first_90]
  · simp [roster_torn, roster_two, fresh_student]

/-! ## Reachable rosters and the average -/

/-- C8 (the code departs from the claim): the roster reached from the empty
roster by adding student 7 and then calling `grades_add_grade` once with a
failing append stores a student with num_courses = 1 and gpa = 90 but no
course, so the per-student invariant does not hold in it. -/
theorem reachable_not_consistent :
    run (grades_init true)
        [Call.add_student Alloc.ok "Dana" 7, Call.add_grade Alloc.no_clone "Algebra" 7 90] =
      some { students :=
        [{ courses := [], name := "Dana", gpa := 90, id := 7, num_courses := 1 }] } ∧
    ¬ consistent { courses := [], name := "Dana", gpa := 90, id := 7, num_courses := 1 } := by
  constructor
  · simp [run, Call.step, grades_init, list_init, grades_add_student, grades_add_grade,
      list_begin_guard, id_exists, add_grade_loop, add_grade_student, course_exists,
      Alloc.ok, Alloc.no_clone, list_push_back, student_data_clone, course_data_clone,
      gpa_update_first_90]
  · simp [consistent]

/-- C11: `grades_calc_avg` with an id that no stored student has returns
-1 and produces no name (`*out` is `NULL`), for every roster, the empty one
included, and every allocation outcome; the roster stays as it was. -/
theorem calc_avg_unknown_id (a : Alloc) (g : grades) (id : Int)
    (h : ∀ s ∈ g.students, s.id ≠ id) :
    grades_calc_avg a (some g) id = ((none, -1), some g) := by
  simp [grades_calc_avg, calc_avg_loop_absent a id g.students h]

theorem calc_avg_unknown_id_witness :
    (∀ s ∈ roster_two.students, s.id ≠ 9) ∧
      grades_calc_avg Alloc.ok (some roster_two) 9 = ((none, -1), some roster_two) ∧
      grades_calc_avg Alloc.ok (some (grades.mk [])) 9 = ((none, -1), some (grades.mk [])) :=
  ⟨by simp [roster_two, fresh_student],
    calc_avg_unknown_id Alloc.ok roster_two 9 (by simp [roster_two, fresh_student]),
    calc_avg_unknown_id Alloc.ok (grades.mk []) 9 (by simp)⟩

/-! ## Printing -/

/-- C12: for the id of a stored student with name N and courses
(c1,g1),...,(ck,gk), `grades_print_student` returns 0 and writes exactly the
canonical line: "N id:", then " ci gi" for each course in order with a ","
after every course except the last, then a newline.  With no courses the line
is "N id:" and the newline; with courses the newline directly follows the text
of the last course, so no comma trails. -/
theorem print_student_line (g : grades) (id : Int) (s : student_data)
    (h : find_student g.students id = some s) :
    grades_print_student (some g) id =
        (0, (s.name ++ " " ++ fmt_d s.id ++ ":") ++ course_list_text s.courses ++ "\n") ∧
      (s.courses = [] →
        grades_print_student (some g) id = (0, (s.name ++ " " ++ fmt_d s.id ++ ":") ++ "\n")) ∧
      (∀ l c, s.courses = l ++ [c] →
        ∃ before, grades_print_student (some g) id =
          (0, before ++ (" " ++ c.name ++ " " ++ fmt_d c.grade) ++ "\n")) := by
  have e := grades_print_student_found g id s h
  refine ⟨e, ?_, ?_⟩
  · intro hc
    rw [e, canonical_line, hc]
    simp [course_list_text]
  · intro l c hc
    refine ⟨(s.name ++ " " ++ fmt_d s.id ++ ":") ++
      (if l = [] then "" else course_list_text l ++ ","), ?_⟩
    rw [e, canonical_line, hc, course_list_text_snoc]
    simp [String.append_assoc]

theorem print_student_line_witness :
    find_student roster_alice_bob.students 1 = some alice ∧
      grades_print_student (some roster_alice_bob) 1 = (0, "Alice 1: CS 90, Math 80\n") ∧
      grades_print_student (some roster_alice_bob) 2 = (0, "Bob 2:\n") :=
  ⟨rfl, (print_student_line roster_alice_bob 1 alice rfl).1.trans (by decide),
    ((print_student_line roster_alice_bob 2 (fresh_student "Bob" 2) rfl).2.1 rfl).trans
      (by decide)⟩

/-- C13: `grades_print_all` returns 0 and writes, in student insertion
order, the canonical line of every stored student (the line
`grades_print_student` writes, newline included) and nothing else; for the
empty roster it returns 0 and writes nothing. -/
theorem print_all_lines (g : grades) :
    grades_print_all (some g) =
        (0, concat_text (g.students.map (fun s =>
          (s.name ++ " " ++ fmt_d s.id ++ ":") ++ course_list_text s.courses ++ "\n"))) ∧
      grades_print_all (some (grades.mk [])) = (0, "") :=
  ⟨grades_print_all_eq g, rfl⟩

/-- C14: `grades_print_student` with an id that no stored student has
returns -1 and writes nothing, for every roster, the empty one included. -/
theorem print_student_unknown_id (g : grades) (id : Int)
    (h : ∀ s ∈ g.students, s.id ≠ id) :
    grades_print_student (some g) id = (-1, "") := by
  rw [grades_print_student_eq_loop, print_student_loop_absent g.students id h]

theorem print_student_unknown_id_witness :
    (∀ s ∈ roster_alice_bob.students, s.id ≠ 3) ∧
      grades_print_student (some roster_alice_bob) 3 = (-1, "") ∧
      grades_print_student (some (grades.mk [])) 3 = (-1, "") :=
  ⟨by simp [roster_alice_bob, alice, fresh_student],
    print_student_unknown_id roster_alice_bob 3 (by simp [roster_alice_bob, alice, fresh_student]),
    print_student_unknown_id (grades.mk []) 3 (by simp)⟩

/-! ## Clone callbacks -/

/-- C15: duplication preserves the value, stated over memory.  With the
source name allocated and `malloc` returning an unused address,
`course_data_clone` returns 0 and outputs a record with the grade of the source
and a name buffer of its own that holds the source's name string: overwriting
or freeing the source's buffer afterwards leaves that copy as it is.
`student_data_clone` returns 0 and outputs a record with the name string (in a
buffer of its own), id, gpa and num_courses of the source, whose courses field
is the address of the very container the source referenced; no container is
created, copied or changed.  Read as values, both outputs are what the
value-level callbacks of the roster operations return. -/
theorem clone_keeps_value_and_container :
    (∀ (m : Memory) (p : Nat) (elem : course_ptr) (str : String),
      m.text elem.name = some str → m.text p = none →
      ∃ c m1, course_data_clone_mem m (some p) elem = ((0, some c), m1) ∧
        c.grade = elem.grade ∧ m1.text c.name = some str ∧ c.name ≠ elem.name ∧
        m1.text elem.name = some str ∧ m1.lists = m.lists ∧
        (∀ t, (overwrite m1 elem.name t).text c.name = some str) ∧
        (release m1 elem.name).text c.name = some str ∧
        read_course m1 c = (course_data_clone true { name := str, grade := elem.grade }).2) ∧
    (∀ (m : Memory) (p : Nat) (elem : student_ptr) (str : String) (cs : List course_data),
      m.text elem.name = some str → m.lists elem.courses = some cs → m.text p = none →
      ∃ c m1, student_data_clone_mem m (some p) elem = ((0, some c), m1) ∧
        m1.text c.name = some str ∧ c.id = elem.id ∧ c.gpa = elem.gpa ∧
        c.num_courses = elem.num_courses ∧ c.courses = elem.courses ∧
        m1.lists = m.lists ∧ c.name ≠ elem.name ∧ m1.text elem.name = some str ∧
        (∀ t, (overwrite m1 elem.name t).text c.name = some str) ∧
        (release m1 elem.name).text c.name = some str ∧
        read_student m1 c =
          (student_data_clone true
            { courses := cs, name := str, gpa := elem.gpa, id := elem.id,
              num_courses := elem.num_courses }).2) ∧
    (∀ (m : Memory) (name_buf : Option Nat) (elem : course_ptr),
      (course_data_clone_mem m name_buf elem).1.1 = 0 ↔ name_buf ≠ none) ∧
    (∀ (m : Memory) (name_buf : Option Nat) (elem : student_ptr),
      (student_data_clone_mem m name_buf elem).1.1 = 0 ↔ name_buf ≠ none) := by
  refine ⟨?_, ?_, ?_, ?_⟩
  · intro m p elem str hs hp
    have hne : p ≠ elem.name := by
      intro e
      rw [e, hs] at hp
      exact Option.noConfusion hp
    have hne2 : elem.name ≠ p := fun e => hne e.symm
    refine ⟨{ grade := elem.grade, name := p }, strcpy m p elem.name, rfl, rfl, ?_, hne, ?_,
      rfl, ?_, ?_, ?_⟩
    · simp [strcpy, hs]
    · simp [strcpy, hne2, hs]
    · intro t
      simp [overwrite, strcpy, hne, hs]
    · simp [release, strcpy, hne, hs]
    · simp [read_course, strcpy, hs, course_data_clone]
  · intro m p elem str cs hs hl hp
    have hne : p ≠ elem.name := by
      intro e
      rw [e, hs] at hp
      exact Option.noConfusion hp
    have hne2 : elem.name ≠ p := fun e => hne e.symm
    refine ⟨⟨elem.courses, p, elem.gpa, elem.id, elem.num_courses⟩, strcpy m p elem.name,
      rfl, ?_, rfl, rfl, rfl, rfl, rfl, hne, ?_, ?_, ?_, ?_⟩
    · simp [strcpy, hs]
    · simp [strcpy, hne2, hs]
    · intro t
      simp [overwrite, strcpy, hne, hs]
    · simp [release, strcpy, hne, hs]
    · simp [read_student, strcpy, hs, hl, student_data_clone]
  · intro m nb elem
    cases nb <;> simp [course_data_clone_mem]
  · intro m nb elem
    cases nb <;> simp [student_data_clone_mem]

theorem clone_keeps_value_and_container_witness :
    (∃ c m1, course_data_clone_mem memory_sample (some 200) course_sample = ((0, some c), m1) ∧
        c.grade = course_sample.grade ∧ m1.text c.name = some "CS" ∧
        c.name ≠ course_sample.name ∧ m1.text course_sample.name = some "CS" ∧
        m1.lists = memory_sample.lists ∧
        (∀ t, (overwrite m1 course_sample.name t).text c.name = some "CS") ∧
        (release m1 course_sample.name).text c.name = some "CS" ∧
        read_course m1 c =
          (course_data_clone true { name := "CS", grade := course_sample.grade }).2) ∧
      (∃ c m1, student_data_clone_mem memory_sample (some 200) student_sample =
          ((0, some c), m1) ∧
        m1.text c.name = some "Alice" ∧ c.id = student_sample.id ∧
        c.gpa = student_sample.gpa ∧ c.num_courses = student_sample.num_courses ∧
        c.courses = student_sample.courses ∧ m1.lists = memory_sample.lists ∧
        c.name ≠ student_sample.name ∧ m1.text student_sample.name = some "Alice" ∧
        (∀ t, (overwrite m1 student_sample.name t).text c.name = some "Alice") ∧
        (release m1 student_sample.name).text c.name = some "Alice" ∧
        read_student m1 c =
          (student_data_clone true
            { courses := [{ name := "CS", grade := 90 }], name := "Alice",
              gpa := student_sample.gpa, id := student_sample.id,
              num_courses := student_sample.num_courses }).2) :=
  ⟨clone_keeps_value_and_container.1 memory_sample 200 course_sample "CS" (by decide)
      (by decide),
    clone_keeps_value_and_container.2.1 memory_sample 200 student_sample "Alice"
      [{ name := "CS", grade := 90 }] (by decide) (by decide) (by decide)⟩

/-! ## Frame of `grades_add_grade` -/

/-- C16: a `grades_add_grade` call for id i, successful or not and whatever
the allocation outcomes, yields a roster with the same number of students in
the same order, in which every student keeps name and id, every student whose
id is not i is unchanged in gpa, num_courses and course list, and the old
course list of each student is a prefix of the new one.  This holds for every
roster, so in particular for those with pairwise distinct ids. -/
theorem add_grade_frame (a : Alloc) (g : grades) (name : String) (i grade : Int) :
    ∃ g1, (grades_add_grade a (some g) name i grade).2 = some g1 ∧
      g1.students.length = g.students.length ∧
      List.Forall₂
        (fun s t => t.name = s.name ∧ t.id = s.id ∧
          (s.id ≠ i → t.gpa = s.gpa ∧ t.num_courses = s.num_courses ∧ t.courses = s.courses) ∧
          s.courses <+: t.courses)
        g.students g1.students := by
  obtain ⟨g1, e, h⟩ := grades_add_grade_frame a g name i grade
  refine ⟨g1, e, h.length_eq.symm, ?_⟩
  refine h.imp ?_
  intro s t hst
  obtain ⟨h1, h2, h3, h4⟩ := hst
  refine ⟨h1, h2, fun hne => ?_, h4⟩
  rw [h3 hne]
  exact ⟨rfl, rfl, rfl⟩

/-! ## Range of the average -/

/-- C17 (the claim as stated fails on the code): student 7 is added to the
empty roster and receives seven grades of 100 in successful calls; the stored
binary32 average is then 13107201/131072 = 100.0000076, above 100, and that is
what `grades_calc_avg` returns. -/
theorem reachable_gpa_above_100 :
    run (grades_init true) seven_hundreds = some roster_hundreds ∧
      grades_calc_avg Alloc.ok (some roster_hundreds) 7 =
        ((some "Dana", 13107201 / 131072), some roster_hundreds) ∧
      (100 : ℚ) < 13107201 / 131072 ∧
      ¬ (∀ s ∈ roster_hundreds.students, 0 ≤ s.gpa ∧ s.gpa ≤ 100) := by
  refine ⟨?_, ?_, by norm_num, ?_⟩
  · simp [run, seven_hundreds, roster_hundreds, Call.step, grades_init, list_init,
      grades_add_student, grades_add_grade, list_begin_guard, id_exists, add_grade_loop,
      add_grade_student, course_exists, Alloc.ok, list_push_back, student_data_clone,
      course_data_clone, gpa_update_100_1, gpa_update_100_2, gpa_update_100_3,
      gpa_update_100_4, gpa_update_100_5, gpa_update_100_6, gpa_update_100_7]
  · simp [grades_calc_avg, calc_avg_loop, Alloc.ok, roster_hundreds]
  · simp only [roster_hundreds, List.mem_singleton, forall_eq, not_and, not_le]
    intro _
    norm_num

/-- C17 (amended): in every roster reached from the empty roster by a finite
sequence of `grades_add_student` and `grades_add_grade` calls (successful or
failing, whatever the allocation outcomes) every stored student has 0 <= gpa,
the gpa being the stored binary32 value; rounding can carry it above 100.
Hence `grades_calc_avg` on such a roster returns -1 exactly when it fails,
which is exactly when it produces no name: when no stored student has the id
or the name buffer cannot be allocated; a call that produces a name returns a
value that is not negative. -/
theorem reachable_gpa_nonneg (cs : List Call) :
    ∃ r, run (grades_init true) cs = some r ∧
      (∀ s ∈ r.students, 0 ≤ s.gpa) ∧
      (∀ (a : Alloc) (id : Int),
        ((grades_calc_avg a (some r) id).1.2 = -1 ↔ (grades_calc_avg a (some r) id).1.1 = none) ∧
        ((grades_calc_avg a (some r) id).1.1 = none ↔
          ((∀ s ∈ r.students, s.id ≠ id) ∨ a.name_buf = false)) ∧
        ((grades_calc_avg a (some r) id).1.1 ≠ none →
          0 ≤ (grades_calc_avg a (some r) id).1.2)) := by
  obtain ⟨r, e, hb⟩ := run_bounded cs { students := [] } (by simp)
  refine ⟨r, e, fun s hs => (hb s hs).2, ?_⟩
  intro a id
  simp only [grades_calc_avg]
  rcases calc_avg_loop_cases a id r.students with h | ⟨s, hs, hid, hbuf, h⟩
  · rw [h]
    refine ⟨by simp, ?_, by simp⟩
    simp only [true_iff]
    by_cases hex : ∀ s ∈ r.students, s.id ≠ id
    · exact Or.inl hex
    · right
      by_contra hbuf
      have hbuf2 : a.name_buf = true := by simpa using hbuf
      cases hf : find_student r.students id with
      | none => exact hex ((find_student_none_iff _ _).mp hf)
      | some u =>
        rw [calc_avg_loop_found_buf a r.students id u hbuf2 hf] at h
        simp at h
  · rw [h]
    obtain ⟨-, hg0⟩ := hb s hs
    refine ⟨?_, ?_, fun _ => hg0⟩
    · simp only [reduceCtorEq, iff_false]
      intro hneg
      rw [hneg] at hg0
      norm_num at hg0
    · simp only [reduceCtorEq, false_iff, not_or, not_forall]
      exact ⟨⟨s, hs, by simpa using hid⟩, by simp [hbuf]⟩

/-! ## `grades_print_all` against `grades_print_student` -/

/-- C18: for every roster whose student ids are pairwise distinct, the text
written by `grades_print_all` is the concatenation, over the stored students in
insertion order, of the text written by `grades_print_student` for each
student's id.  In any roster `grades_print_student` writes the line of the
first student with the id only, so with a repeated id (`roster_same_id`) the
two texts differ. -/
theorem print_all_concat :
    (∀ g : grades, (g.students.map student_data.id).Nodup →
      (grades_print_all (some g)).2 =
        concat_text (g.students.map (fun s => (grades_print_student (some g) s.id).2))) ∧
    (∀ (g : grades) (id : Int) (pre post : List student_data) (s : student_data),
      g.students = pre ++ s :: post → (∀ t ∈ pre, t.id ≠ id) → s.id = id →
      (grades_print_student (some g) id).2 =
        (s.name ++ " " ++ fmt_d s.id ++ ":") ++ course_list_text s.courses ++ "\n") ∧
    (grades_print_all (some roster_same_id)).2 = "Dana 7:\nOmer 7:\n" ∧
    concat_text (roster_same_id.students.map
      (fun s => (grades_print_student (some roster_same_id) s.id).2)) = "Dana 7:\nDana 7:\n" := by
  refine ⟨?_, ?_, by decide, by decide⟩
  · intro g hn
    rw [grades_print_all_eq]
    show concat_text (g.students.map canonical_line) = _
    congr 1
    apply List.map_congr_left
    intro s hs
    rw [grades_print_student_found g s.id s (find_student_of_mem_nodup g.students s hn hs)]
  · intro g id pre post s hl hpre hs
    have hf : find_student g.students id = some s := by
      rw [hl]; exact find_student_of_split hpre hs
    rw [grades_print_student_found g id s hf]
    rfl

theorem print_all_concat_witness :
    (roster_alice_bob.students.map student_data.id).Nodup ∧
      (grades_print_all (some roster_alice_bob)).2 =
        concat_text (roster_alice_bob.students.map
          (fun s => (grades_print_student (some roster_alice_bob) s.id).2)) :=
  ⟨by decide, print_all_concat.1 roster_alice_bob (by decide)⟩

end GradesC
